import Mathlib

/-!
Verification development for the expense-classification and budget-aggregation
core of the KISS research-fund processing program (`research_core.py`,
`config.py`).  The Python data frames are shallowly embedded: a cell is null
(NaN), a string, or an integer; a row is an association list from column names
to cells; a data frame is a column list plus a row list.  Monetary amounts are
integers (the configured budgets and the ledger amounts are whole won).
-/

/-- A pandas cell: NaN, a string, or an integer amount. -/
inductive Cell where
  | null : Cell
  | str (s : String) : Cell
  | num (n : Int) : Cell
deriving DecidableEq, Repr

/-- A data-frame row: association list from column name to cell. -/
abbrev DRow := List (String × Cell)

/-- A pandas DataFrame: the column schema plus the rows. -/
structure DataFrame where
  cols : List String
  rows : List DRow
deriving DecidableEq, Repr

/-- `row[col]`: reading a cell; a column absent from the row reads as NaN. -/
def getCell (r : DRow) (c : String) : Cell :=
  (r.lookup c).getD Cell.null

/-- `df[col] = v` on one row: replace the first binding of `c` (append if absent). -/
def setCell : DRow → String → Cell → DRow
  | [], c, v => [(c, v)]
  | (k, w) :: rest, c, v =>
    if k = c then (c, v) :: rest else (k, w) :: setCell rest c v

/-! ### String primitives modelling the Python string operations -/

/-- `leadsOf p s`: the char list `p` is a leading segment of `s`
(models Python `s.startswith(p)` with `s` and `p` as char lists). -/
def leadsOf : List Char → List Char → Bool
  | [], _ => true
  | _ :: _, [] => false
  | a :: ps, b :: ss => a = b && leadsOf ps ss

/-- `hasSeg n h`: the char list `n` occurs as a contiguous segment of `h`
(models Python `n in h` substring containment). -/
def hasSeg : List Char → List Char → Bool
  | n, [] => n.isEmpty
  | n, c :: rest => leadsOf n (c :: rest) || hasSeg n rest

/-- Python `s.startswith(p)` on strings. -/
def pyStartsWith (s p : String) : Bool := leadsOf p.data s.data

/-- Python `n in h` on strings (case-sensitive substring containment). -/
def pyContains (h n : String) : Bool := hasSeg n.data h.data

/-- Lower-casing of a char list (`re.IGNORECASE` matching of literal patterns;
Hangul is unaffected, ASCII letters are folded). -/
def lowerData (s : String) : List Char := s.data.map Char.toLower

/-- Case-insensitive substring containment: models
`hay.str.contains(escaped_needle, case=False, regex=True)` where the needle has
its parentheses escaped, so the pattern is a literal. -/
def containsCI (hay needle : String) : Bool :=
  hasSeg (lowerData needle) (lowerData hay)

/-! ### Configuration data (`config.py`) -/

/-- `BUSINESS_PREFIX = '25 차세대'`. -/
def businessPfx : String := "25 차세대"

/-- `RESEARCH_PREFIX = '25 심층연구'`. -/
def researchPfx : String := "25 심층연구"

/-- `SUMMARY_COLUMN = '적요'`. -/
def summaryColumn : String := "적요"

/-- `BUDGET_CLASSIFICATION['budget_categories']`: the fixed taxonomy forest
category → subcategory → line-items, in insertion order. -/
def budget_categories : List (String × List (String × List String)) :=
  [ ("인건비", [("일용임금", ["일용임금"])]),
    ("민간이전", [("고용부담금", ["일용직 고용부담금"])]),
    ("운영비",
      [ ("일반수용비", ["지급수수료", "도서인쇄비", "소모품비", "홍보비"]),
        ("공공요금및제세", ["제세공과금", "통신비", "보험료"]),
        ("피복비", ["피복비"]),
        ("임차료", ["임차료"]),
        ("유류비", ["유류비"]),
        ("시설장비유지비", ["시설장비유지비"]),
        ("복리후생비", ["급여성복리후생비(일용직)", "일용직 비급여성비용"]),
        ("일반용역비", ["행사비", "일반용역비"]) ]),
    ("여비",
      [ ("국내여비", ["국내여비"]),
        ("국외여비", ["국외업무여비"]) ]),
    ("업무추진비", [("사업추진비", ["사업추진비", "회의비"])]) ]

/-- `BUDGET2025['2025_budget_amounts']`, the per-line-item default budgets for
2025, in dict insertion order (the substring fallback scans this order). -/
def defaultBudgets2025 : List (String × Int) :=
  [ ("일용임금", 1256007740),
    ("일용직 고용부담금", 277035006),
    ("지급수수료", 82900000),
    ("도서인쇄비", 37000000),
    ("소모품비", 29347216),
    ("홍보비", 0),
    ("제세공과금", 6460038),
    ("통신비", 700000),
    ("보험료", 0),
    ("피복비", 23400000),
    ("임차료", 387000000),
    ("유류비", 17400000),
    ("시설장비유지비", 5000000),
    ("급여성복리후생비(일용직)", 19800000),
    ("일용직 비급여성비용", 11550000),
    ("행사비", 0),
    ("일반용역비", 281000000),
    ("국내여비", 220000000),
    ("국외업무여비", 36000000),
    ("사업추진비", 29400000),
    ("회의비", 0),
    ("연구개발비", 90000000) ]

/-! ### DataClassifier (`research_core.py` lines 96-131) -/

/-- The three classified row-sets returned by `DataClassifier.classify_data`. -/
structure ClassificationResult where
  business : List DRow
  research : List DRow
  unclassified : List DRow
deriving DecidableEq, Repr

/-- Memo preprocessing `fillna('').astype(str)` of one cell: NaN becomes the
empty string, strings stay, numbers are rendered as text. -/
def memoStr : Cell → String
  | Cell.null => ""
  | Cell.str s => s
  | Cell.num n => toString n

/-- `work_data[summary_column] = work_data[summary_column].fillna('').astype(str)`
applied to one row. -/
def preprocessMemo (col : String) (r : DRow) : DRow :=
  setCell r col (Cell.str (memoStr (getCell r col)))

/-- The string held in a (preprocessed) memo cell. -/
def cellText : Cell → String
  | Cell.str s => s
  | _ => ""

/-- Business mask: the preprocessed memo starts with `BUSINESS_PREFIX`. -/
def isBusinessRow (col : String) (r : DRow) : Bool :=
  pyStartsWith (cellText (getCell r col)) businessPfx

/-- Research mask: the preprocessed memo starts with `RESEARCH_PREFIX`. -/
def isResearchRow (col : String) (r : DRow) : Bool :=
  pyStartsWith (cellText (getCell r col)) researchPfx

/-- `', '.join(columns)` for the missing-column error message. -/
def joinCols : List String → String
  | [] => ""
  | [c] => c
  | c :: rest => c ++ ", " ++ joinCols rest

/-- `DataClassifier.classify_data`: raises (models `ValueError`) on empty data
or a missing memo column, otherwise splits the preprocessed rows by the
business/research masks, the complement of their union being unclassified. -/
def classify_data (df : DataFrame) (col : String) : Except String ClassificationResult :=
  if df.rows.isEmpty then
    Except.error "분류할 데이터가 없습니다."
  else if ¬ (col ∈ df.cols) then
    Except.error ("'" ++ col ++ "' 컬럼이 데이터에 존재하지 않습니다.\n사용 가능한 컬럼: "
      ++ joinCols df.cols)
  else
    let work := df.rows.map (preprocessMemo col)
    Except.ok
      { business := work.filter (isBusinessRow col)
        research := work.filter (isResearchRow col)
        unclassified := work.filter (fun r => !(isBusinessRow col r || isResearchRow col r)) }

/-- The error message of a failed classification, if any. -/
def classifyError (df : DataFrame) (col : String) : Option String :=
  match classify_data df col with
  | Except.error m => some m
  | Except.ok _ => none

/-! ### TextExtractor (`research_core.py` lines 1221-1258) -/

/-- Leftmost match of the pattern `25 심층연구\(([^)]+)\)` starting at the head
of `s`: after the literal marker, capture the maximal nonempty run of
non-`)` characters, which must be followed by `)`. -/
def topicCapture (after : List Char) : Option (List Char) :=
  let cap := after.takeWhile (fun c => !(c = ')'))
  if cap.isEmpty then none
  else if cap.length < after.length then some cap
  else none

/-- `re.search` of the topic pattern: scan left to right for the first
position where the marker literal matches and a capture succeeds. -/
def topicSearch (marker : List Char) : List Char → Option (List Char)
  | [] => none
  | c :: rest =>
    match if leadsOf marker (c :: rest) then topicCapture ((c :: rest).drop marker.length)
          else none with
    | some cap => some cap
    | none => topicSearch marker rest

/-- Hangul-syllable test for the `[가-힣]` character class. -/
def isHangul (c : Char) : Bool := '가' ≤ c && c ≤ '힣'

/-- `re.search` of `_([가-힣]+)`: first `_` followed by at least one Hangul
syllable; capture the maximal Hangul run. -/
def nameSearch : List Char → Option (List Char)
  | [] => none
  | c :: rest =>
    if c = '_' then
      let cap := rest.takeWhile isHangul
      if cap.isEmpty then nameSearch rest else some cap
    else nameSearch rest

/-- `SummarySheetGenerator._extract_research_topic`: non-string input (NaN or
a number) yields `''`; otherwise the first `([^)]+)` capture after the literal
marker `25 심층연구(`, or `''` when the pattern does not match. -/
def extract_research_topic (c : Cell) : String :=
  match c with
  | Cell.str s =>
    match topicSearch ("25 심층연구(".data) s.data with
    | some cap => String.mk cap
    | none => ""
  | _ => ""

/-- `SummarySheetGenerator._extract_researcher_name`: non-string input yields
`''`; otherwise the first Hangul run after an underscore, or `''`. -/
def extract_researcher_name (c : Cell) : String :=
  match c with
  | Cell.str s =>
    match nameSearch s.data with
    | some cap => String.mk cap
    | none => ""
  | _ => ""

/-! ### Grouping (`groupby(...).sum()` over one key column) -/

/-- Sum of the amounts of a keyed list. -/
def sumA {κ : Type} (l : List (κ × Int)) : Int := (l.map (fun e => e.2)).sum

/-- First-occurrence deduplication of a key list. -/
def dedupF {κ : Type} [DecidableEq κ] : List κ → List κ
  | [] => []
  | k :: ks => k :: (dedupF ks).filter (fun x => !decide (x = k))

/-- `groupby(key).sum()`: one entry per distinct key carrying the summed
amount.  (pandas emits groups in sorted key order; every consumer below is
insensitive to the order of this list, so first-occurrence order is used.) -/
def groupBySum {κ : Type} [DecidableEq κ] (l : List (κ × Int)) : List (κ × Int) :=
  (dedupF (l.map (fun e => e.1))).map
    (fun k => (k, sumA (l.filter (fun e => decide (e.1 = k)))))

/-! ### SummarySheetGenerator: expense aggregation (lines 1295-1320) -/

/-- Line-item preprocessing `fillna('미분류').astype(str)`. -/
def labelStr : Cell → String
  | Cell.null => "미분류"
  | Cell.str s => s
  | Cell.num n => toString n

/-- Amount preprocessing `pd.to_numeric(x, errors='coerce').fillna(0)`:
NaN and unparsable text coerce to 0 (integer-valued cells; the ledger holds
whole-won amounts). -/
def amtNum : Cell → Int
  | Cell.null => 0
  | Cell.str s => (s.toInt?).getD 0
  | Cell.num n => n

/-- `SummarySheetGenerator._aggregate_expenses`: `none` models the degraded
empty frame returned when a required column (`예산과목`, `총지급액`) is missing;
otherwise the working mapping raw-label → summed amount. -/
def aggregate_expenses (df : DataFrame) : Option (List (String × Int)) :=
  if "예산과목" ∈ df.cols ∧ "총지급액" ∈ df.cols then
    some (groupBySum (df.rows.map
      (fun r => (labelStr (getCell r "예산과목"), amtNum (getCell r "총지급액")))))
  else none

/-! ### SummarySheetGenerator: the taxonomy walk (lines 1322-1386) -/

/-- One flattened taxonomy row: (category label or `''`, subcategory label or
`''`, line-item); the labels are nonempty only on the first row of their
group, exactly as the nested loops set `is_first_category_item` /
`is_first_subcategory_item`. -/
abbrev FlatTax := String × String × String

/-- Flatten one subcategory's items: the first item carries the subcategory
label (and the category label when it is the first of the category). -/
def flatItems (cat sub : String) (firstCat : Bool) : List String → List FlatTax
  | [] => []
  | i :: rest =>
    ((if firstCat then cat else ""), sub, i) :: rest.map (fun j => ("", "", j))

/-- Flatten one category's subcategories, threading the first-of-category flag. -/
def flatSubcats (cat : String) (firstCat : Bool) : List (String × List String) → List FlatTax
  | [] => []
  | (sub, items) :: rest =>
    flatItems cat sub firstCat items ++ flatSubcats cat (firstCat && items.isEmpty) rest

/-- Flatten the whole taxonomy forest in its fixed iteration order. -/
def flatCats : List (String × List (String × List String)) → List FlatTax
  | [] => []
  | (cat, subs) :: rest => flatSubcats cat true subs ++ flatCats rest

/-- The flattened configured taxonomy (21 line-item rows). -/
def flatTax : List FlatTax := flatCats budget_categories

/-- Exact raw-label match against a taxonomy line-item. -/
def exactSel (item : String) (e : String × Int) : Bool := decide (e.1 = item)

/-- Substring match: the raw label contains the (paren-escaped) line-item
case-insensitively — `str.contains(escaped_item, na=False, case=False)`. -/
def subSel (item : String) (e : String × Int) : Bool := containsCI e.1 item

/-- One step of the reconciliation: exact matches first, otherwise all
substring matches; return the consumed entries and the remaining mapping. -/
def selectMatch (item : String) (rem : List (String × Int)) :
    List (String × Int) × List (String × Int) :=
  let ex := rem.filter (exactSel item)
  if ex.isEmpty then
    let sub := rem.filter (subSel item)
    if sub.isEmpty then ([], rem)
    else (sub, rem.filter (fun e => !subSel item e))
  else (ex, rem.filter (fun e => !exactSel item e))

/-- The taxonomy walk with explicit bookkeeping: for each flattened taxonomy
row the list of consumed working-mapping entries, plus the leftover mapping.
The emitted spent amount of a row is the sum of its consumed entries. -/
def hierWalk : List FlatTax → List (String × Int) →
    List (FlatTax × List (String × Int)) × List (String × Int)
  | [], rem => ([], rem)
  | f :: fs, rem =>
    let step := selectMatch f.2.2 rem
    let tail := hierWalk fs step.2
    ((f, step.1) :: tail.1, tail.2)

/-- A row of the hierarchical spent structure (before budget columns). -/
structure HRow where
  cat : String
  sub : String
  item : String
  spent : Int
deriving DecidableEq, Repr

/-- `SummarySheetGenerator._create_hierarchical_structure`: one row per
taxonomy line-item (labels blanked after the first of each group) followed by
the `총액` row whose spent amount accumulates the emitted rows. -/
def create_hierarchical_structure (l : List (String × Int)) : List HRow :=
  let rc := (hierWalk flatTax l).1
  let rows := rc.map (fun p => HRow.mk p.1.1 p.1.2.1 p.1.2.2 (sumA p.2))
  rows ++ [HRow.mk "총액" "" "" ((rows.map (fun r => r.spent)).sum)]

/-! ### SummarySheetGenerator: budget columns (lines 1388-1442) -/

/-- `SummarySheetGenerator._get_budget_amount`: the `총액` (or blank) row gets
the sum of ALL configured defaults; otherwise exact dict lookup, then the
first key related by substring in either direction, else 0. -/
def get_budget_amount (budget_item : String) (db : List (String × Int)) : Int :=
  if budget_item = "총액" ∨ budget_item = "" then sumA db
  else
    match db.lookup budget_item with
    | some v => v
    | none =>
      match db.find? (fun kv => pyContains budget_item kv.1 || pyContains kv.1 budget_item) with
      | some kv => kv.2
      | none => 0

/-- Modelled on the spec's wording (§4.3 step 5) for the refinement statement
about per-row budgets: exact match against the per-year default-budget
mapping, else the first key related by substring in either direction
(key-in-item or item-in-key), else 0 — with no TOTAL-row branch. -/
def budget_lookup_spec (budget_item : String) (db : List (String × Int)) : Int :=
  match db.lookup budget_item with
  | some v => v
  | none =>
    match db.find? (fun kv => pyContains budget_item kv.1 || pyContains kv.1 budget_item) with
    | some kv => kv.2
    | none => 0

/-- Integer rendering of `f"{x:.0f}"` for `x = spent/budget*100` with
`budget > 0`: round to nearest (Python rounds exact halves to even; an exact
half never occurs for the configured budgets, so round-half-up is used). -/
def pctStr (spent budget : Int) : String :=
  toString ((2 * (100 * spent) + budget).ediv (2 * budget))

/-- The `집행률` column: `f"{spent/budget*100:.0f}"` when `budget > 0`, else `"0"`. -/
def execRate (spent budget : Int) : String :=
  if budget > 0 then pctStr spent budget else "0"

/-- A finished summary-sheet row. -/
structure SRow where
  cat : String
  sub : String
  item : String
  budget : Int
  spent : Int
  remainder : Int
  rate : String
deriving DecidableEq, Repr

/-- `SummarySheetGenerator._add_budget_calculations`: per-row budget lookup,
`예산잔액 = 예산금액 - 지출액`, and the execution-rate string. -/
def add_budget_calculations (h : List HRow) : List SRow :=
  h.map (fun r =>
    let b := get_budget_amount r.item defaultBudgets2025
    SRow.mk r.cat r.sub r.item b r.spent (b - r.spent) (execRate r.spent b))

/-- `SummarySheetGenerator.generate_summary_sheet`: empty input yields the
empty (typed) frame; a missing required column degrades to the empty frame
through the caught `KeyError` inside `_create_hierarchical_structure`;
otherwise aggregate, walk the taxonomy, and add the budget columns. -/
def generate_summary_sheet (df : DataFrame) : List SRow :=
  if df.rows.isEmpty then []
  else
    match aggregate_expenses df with
    | none => []
    | some l => add_budget_calculations (create_hierarchical_structure l)

/-! ### ResearchSummaryBuilder (lines 1445-1816) -/

/-- A row of the composite research sheet: title and separator rows carry
`''` strings in the numeric columns, so those columns are cells. -/
structure CRow where
  cat : String
  sub : String
  item : String
  budget : Cell
  spent : Cell
  remainder : Cell
  rate : String
deriving DecidableEq, Repr

/-- Injection of a finished summary row into the composite sheet. -/
def toCRow (r : SRow) : CRow :=
  CRow.mk r.cat r.sub r.item (Cell.num r.budget) (Cell.num r.spent)
    (Cell.num r.remainder) r.rate

/-- A fully blank separator row (`{col: '' for col in SUMMARY_SHEET_COLUMNS}`). -/
def blankCRow : CRow :=
  CRow.mk "" "" "" (Cell.str "") (Cell.str "") (Cell.str "") ""

/-- `str(...)` of a cell as used by `_calculate_research_expense` (Python
renders NaN as `'nan'` and a missing column as the `''` default; neither
contains any configured keyword, so `''` is used for both). -/
def pyStrA : Cell → String
  | Cell.null => ""
  | Cell.str s => s
  | Cell.num n => toString n

/-- The keyword sets of `_calculate_research_expense`. -/
def categoryKeywords (category : String) : Option (List String) :=
  if category = "연구개발비" then some ["연구개발비", "연구비", "연구개발"]
  else if category = "자산취득비" then some ["자산취득비", "자산취득", "유형자산", "장비구입", "기자재"]
  else none

/-- One row matches a keyword set when some keyword occurs in its line-item
text or its memo text (`first match wins` only caps one addition per row). -/
def rowKeywordHit (kws : List String) (r : DRow) : Bool :=
  kws.any (fun kw =>
    pyContains (pyStrA (getCell r "예산과목")) kw ||
    pyContains (pyStrA (getCell r "적요")) kw)

/-- `SummarySheetGenerator._calculate_research_expense`: sum the paid amount
over rows hitting the category's keyword set; 0 for empty data, a missing
amount column, or an unknown category. -/
def calculate_research_expense (df : DataFrame) (category : String) : Int :=
  if df.rows.isEmpty then 0
  else if ¬ ("총지급액" ∈ df.cols) then 0
  else
    match categoryKeywords category with
    | none => 0
    | some kws =>
      (df.rows.map (fun r =>
        if rowKeywordHit kws r then amtNum (getCell r "총지급액") else 0)).sum

/-- The synthetic R&D-expense row (budget fixed at 0, rate `'0%'`/`'∞%'`). -/
def rndExpenseRow (e : Int) : CRow :=
  CRow.mk "연구개발비" "연구개발비" "연구개발비" (Cell.num 0) (Cell.num e) (Cell.num (-e))
    (if e = 0 then "0%" else "∞%")

/-- The synthetic asset-acquisition row (budget fixed at 0). -/
def assetExpenseRow (e : Int) : CRow :=
  CRow.mk "유형자산" "자산취득비" "자산취득비" (Cell.num 0) (Cell.num e) (Cell.num (-e))
    (if e = 0 then "0%" else "∞%")

/-- Numeric reading of a spent cell for the `['지출액'].sum()` column sum. -/
def cellInt : Cell → Int
  | Cell.num n => n
  | _ => 0

/-- `SummarySheetGenerator._generate_total_summary`: the full-track summary
with the `총액` row replaced by synthetic R&D/asset rows plus a recomputed
`총액` row, a `총합` title prepended and two blank separators appended. -/
def generate_total_summary (df : DataFrame) : List CRow :=
  let base := generate_summary_sheet df
  if base.isEmpty then []
  else
    let rd := calculate_research_expense df "연구개발비"
    let ae := calculate_research_expense df "자산취득비"
    let core :=
      match base.findIdx? (fun r => decide (r.cat = "총액")) with
      | some i =>
        let pre := (base.take i).map toCRow
        let te := ((pre ++ [rndExpenseRow rd, assetExpenseRow ae]).map
          (fun r => cellInt r.spent)).sum
        pre ++ [rndExpenseRow rd, assetExpenseRow ae,
          CRow.mk "총액" "" "" (Cell.num 0) (Cell.num te) (Cell.num (-te))
            (if te = 0 then "0%" else "∞%")]
      | none => base.map toCRow
    (CRow.mk "총합" "" "" (Cell.str "") (Cell.str "") (Cell.str "") "") ::
      core ++ [blankCRow, blankCRow]

/-- Code-point comparison of strings (Python `<` on str). -/
def charListLt : List Char → List Char → Bool
  | [], [] => false
  | [], _ :: _ => true
  | _ :: _, [] => false
  | a :: as_, b :: bs => a < b || (a = b && charListLt as_ bs)

/-- Python tuple `≤` on (topic, researcher) pairs. -/
def pairLe (p q : String × String) : Bool :=
  charListLt p.1.data q.1.data ||
    (p.1 = q.1 && (charListLt p.2.data q.2.data || p.2 = q.2))

/-- Insertion into a `pairLe`-sorted list. -/
def insertSorted (x : String × String) : List (String × String) → List (String × String)
  | [] => [x]
  | y :: ys => if pairLe x y then x :: y :: ys else y :: insertSorted x ys

/-- Insertion sort by `pairLe` (models Python `sorted` on a set of distinct
tuples: any total-order sort yields the same ascending list). -/
def sortPairs : List (String × String) → List (String × String)
  | [] => []
  | x :: xs => insertSorted x (sortPairs xs)

/-- The (topic, researcher) pair of one row, when both extractions succeed. -/
def pairOf (r : DRow) : Option (String × String) :=
  let t := extract_research_topic (getCell r "적요")
  let n := extract_researcher_name (getCell r "적요")
  if t ≠ "" ∧ n ≠ "" then some (t, n) else none

/-- `SummarySheetGenerator._extract_topic_researcher_combinations`: the
distinct extracted pairs, sorted; empty when the memo column is absent. -/
def extract_topic_researcher_combinations (df : DataFrame) : List (String × String) :=
  if "적요" ∈ df.cols then sortPairs (dedupF (df.rows.filterMap pairOf))
  else []

/-- The row test of `_filter_data_by_topic_researcher`: both extractions
equal the pair exactly. -/
def pairFilter (topic researcher : String) (r : DRow) : Bool :=
  decide (extract_research_topic (getCell r "적요") = topic) &&
  decide (extract_researcher_name (getCell r "적요") = researcher)

/-- `SummarySheetGenerator._filter_data_by_topic_researcher`: rows whose
extracted pair equals (topic, researcher) exactly; a bare empty frame when
nothing matches or the memo column is absent. -/
def filter_data_by_topic_researcher (df : DataFrame) (topic researcher : String) : DataFrame :=
  if "적요" ∈ df.cols then
    let kept := df.rows.filter (pairFilter topic researcher)
    if kept.isEmpty then DataFrame.mk [] [] else DataFrame.mk df.cols kept
  else DataFrame.mk [] []

/-- `SummarySheetGenerator._create_empty_budget_structure`: the manual
all-zero skeleton (the internal `_create_hierarchical_structure(empty)` call
degrades to the empty frame through its caught `KeyError`). -/
def create_empty_budget_structure : List SRow :=
  flatTax.map (fun f => SRow.mk f.1 f.2.1 f.2.2 0 0 0 "0%")

/-- `SummarySheetGenerator._generate_individual_table`: the per-pair table —
two leading blanks, the (topic, researcher) title row, the summary body with
every `총액` row removed, the two synthetic rows, two trailing blanks. -/
def generate_individual_table (fd : DataFrame) (topic researcher : String) : List CRow :=
  let base := generate_summary_sheet fd
  let base := if base.isEmpty then create_empty_budget_structure else base
  let body := (base.filter (fun row => !decide (row.cat = "총액"))).map toCRow
  let rd := calculate_research_expense fd "연구개발비"
  let ae := calculate_research_expense fd "자산취득비"
  [blankCRow, blankCRow,
   CRow.mk topic researcher "" (Cell.str "") (Cell.str "") (Cell.str "") ""] ++
    body ++ [rndExpenseRow rd, assetExpenseRow ae] ++ [blankCRow, blankCRow]

/-- `SummarySheetGenerator._generate_individual_summaries`: one table per
extracted pair in sorted order, skipping pairs whose filtered subset is empty. -/
def generate_individual_summaries (df : DataFrame) : List (List CRow) :=
  (extract_topic_researcher_combinations df).filterMap (fun p =>
    let fd := filter_data_by_topic_researcher df p.1 p.2
    if fd.rows.isEmpty then none else some (generate_individual_table fd p.1 p.2))

/-- `SummarySheetGenerator.generate_research_summary_sheet`: the grand-total
table followed by the per-pair tables. -/
def generate_research_summary_sheet (df : DataFrame) : List CRow :=
  if df.rows.isEmpty then []
  else generate_total_summary df ++ (generate_individual_summaries df).flatten

/-! ### TotalSheetGenerator (lines 3111-3421) -/

/-- `_aggregate_business_expenses` / `_aggregate_research_expenses`: group the
raw line-item cells (NaN keys are dropped by `groupby`) summing the amount
column (`총지급액`, else `지출액`); empty on empty input or missing columns
(the `KeyError` on a missing `예산과목` is caught).  `cellInt` reads amounts
of a numeric column (NaN sums as 0); string-valued amount cells fall outside
this numeric-column model. -/
def aggregate_track (df : DataFrame) : List (Cell × Int) :=
  if df.rows.isEmpty then []
  else
    let amountCol := if "총지급액" ∈ df.cols then "총지급액" else "지출액"
    if ¬ (amountCol ∈ df.cols) then []
    else if ¬ ("예산과목" ∈ df.cols) then []
    else
      groupBySum (df.rows.filterMap (fun r =>
        match getCell r "예산과목" with
        | Cell.null => none
        | c => some (c, cellInt (getCell r amountCol))))

/-- A skeleton row of the total sheet (full labels on every row). -/
structure TSkel where
  cat : String
  sub : String
  item : String
  center : Int
  research : Int
deriving DecidableEq, Repr

/-- A finished total-sheet row. -/
structure TRow where
  cat : String
  sub : String
  item : String
  budget : Int
  center : Int
  research : Int
  remainder : Int
  rate : String
deriving DecidableEq, Repr

/-- Full enumeration of one category's (category, subcategory, item) triples. -/
def fullSubs (cat : String) : List (String × List String) → List (String × String × String)
  | [] => []
  | (sub, items) :: rest => items.map (fun i => (cat, sub, i)) ++ fullSubs cat rest

/-- Full enumeration of the taxonomy triples. -/
def fullCats : List (String × List (String × List String)) → List (String × String × String)
  | [] => []
  | (cat, subs) :: rest => fullSubs cat subs ++ fullCats rest

/-- The taxonomy triples with full labels, in taxonomy order. -/
def fullTax : List (String × String × String) := fullCats budget_categories

/-- `TotalSheetGenerator._create_full_hierarchical_structure`: every taxonomy
line-item present with center = 0 and research = 0 defaults. -/
def create_full_hierarchical_structure : List TSkel :=
  fullTax.map (fun f => TSkel.mk f.1 f.2.1 f.2.2 0 0)

/-- `TotalSheetGenerator._map_expenses_to_structure`: write each aggregated
amount onto the skeleton rows whose line-item label equals the group key
exactly (`result_data['예산과목'] == budget_item`; no substring fallback). -/
def map_expenses_to_structure (skel : List TSkel) (bAgg rAgg : List (Cell × Int)) :
    List TSkel :=
  let s1 := bAgg.foldl (fun rows e =>
    rows.map (fun row => if Cell.str row.item = e.1 then { row with center := e.2 } else row)) skel
  rAgg.foldl (fun rows e =>
    rows.map (fun row => if Cell.str row.item = e.1 then { row with research := e.2 } else row)) s1

/-- `TotalSheetGenerator._get_budget_amount`: plain `dict.get(item, 0)`. -/
def get_budget_amount_total (item : String) (db : List (String × Int)) : Int :=
  (db.lookup item).getD 0

/-- `TotalSheetGenerator._add_budget_calculations`: budget lookup, remainder
`budget - center - research`, rate from the summed spend. -/
def add_budget_calculations_total (skel : List TSkel) : List TRow :=
  skel.map (fun r =>
    let b := get_budget_amount_total r.item defaultBudgets2025
    TRow.mk r.cat r.sub r.item b r.center r.research (b - r.center - r.research)
      (execRate (r.center + r.research) b))

/-- `TotalSheetGenerator._add_total_row`: append the `총액` row of column sums
(budget, center, research, remainder) with the rate recomputed from the sums. -/
def add_total_row (l : List TRow) : List TRow :=
  if l.isEmpty then l
  else
    let tb := (l.map (fun r => r.budget)).sum
    let tc := (l.map (fun r => r.center)).sum
    let tr := (l.map (fun r => r.research)).sum
    l ++ [TRow.mk "총액" "" "" tb tc tr (tb - tc - tr) (execRate (tc + tr) tb)]

/-- `TotalSheetGenerator.generate_total_sheet`: aggregate both tracks, build
the full skeleton, map amounts by exact label equality, add the budget
columns and the total row. -/
def generate_total_sheet (bdf rdf : DataFrame) : List TRow :=
  add_total_row (add_budget_calculations_total
    (map_expenses_to_structure create_full_hierarchical_structure
      (aggregate_track bdf) (aggregate_track rdf)))

/-- Whether a cell holds a string (used to state the numeric-amount-column
domain that `cellInt` models for the totals aggregation). -/
def isStrCell : Cell → Bool
  | Cell.str _ => true
  | _ => false

/-- A raw label matches some taxonomy line-item of `fts`: exactly, or by
containing it as a case-insensitive substring (the two match modes of the
reconciliation walk). -/
def matchesAnyOf (fts : List FlatTax) (label : String) : Bool :=
  fts.any (fun f => decide (label = f.2.2) || containsCI label f.2.2)

/-! ## Helper lemmas -/

theorem sumA_append {κ : Type} (l₁ l₂ : List (κ × Int)) :
    sumA (l₁ ++ l₂) = sumA l₁ + sumA l₂ := by
  simp [sumA]

theorem leads_total : ∀ (s p q : List Char), leadsOf p s = true → leadsOf q s = true →
    leadsOf p q = true ∨ leadsOf q p = true
  | _, [], _, _, _ => Or.inl rfl
  | _, _ :: _, [], _, _ => Or.inr rfl
  | [], _ :: _, _ :: _, h, _ => by simp [leadsOf] at h
  | b :: ss, a :: ps, c :: qs, h1, h2 => by
    simp only [leadsOf, Bool.and_eq_true, decide_eq_true_eq] at h1 h2 ⊢
    obtain ⟨rfl, h1⟩ := h1
    obtain ⟨rfl, h2⟩ := h2
    rcases leads_total ss ps qs h1 h2 with h | h
    · exact Or.inl ⟨rfl, h⟩
    · exact Or.inr ⟨rfl, h⟩

theorem not_business_and_research (s : String) :
    ¬(pyStartsWith s businessPfx = true ∧ pyStartsWith s researchPfx = true) := by
  rintro ⟨h1, h2⟩
  rcases leads_total s.data businessPfx.data researchPfx.data h1 h2 with h | h
  · exact absurd h (by decide)
  · exact absurd h (by decide)

theorem filter_or_perm {α : Type} (p q : α → Bool) :
    ∀ (l : List α), (∀ a ∈ l, ¬(p a = true ∧ q a = true)) →
    (l.filter p ++ l.filter q).Perm (l.filter (fun a => p a || q a))
  | [], _ => by simp
  | x :: xs, h => by
    have hx := h x (by simp)
    have ih := filter_or_perm p q xs (fun a ha => h a (by simp [ha]))
    cases hp : p x with
    | true =>
      have hq : q x = false := by
        cases hq2 : q x
        · rfl
        · exact absurd ⟨hp, hq2⟩ hx
      simpa [List.filter_cons, hp, hq] using ih.cons x
    | false =>
      cases hq : q x with
      | true =>
        simp only [List.filter_cons, hp, hq, Bool.false_or, if_true, if_false]
        exact List.perm_middle.trans (ih.cons x)
      | false =>
        simpa [List.filter_cons, hp, hq] using ih

theorem leadsOf_append_self : ∀ (n rest : List Char), leadsOf n (n ++ rest) = true
  | [], _ => rfl
  | a :: n', rest => by
    simpa [List.cons_append, leadsOf] using leadsOf_append_self n' rest

theorem hasSeg_self_append : ∀ (n rest : List Char), hasSeg n (n ++ rest) = true := by
  intro n rest
  cases n with
  | nil =>
    cases rest with
    | nil => rfl
    | cons c cs => simp [hasSeg, leadsOf]
  | cons a n' =>
    simp only [List.cons_append, hasSeg, Bool.or_eq_true]
    exact Or.inl (leadsOf_append_self (a :: n') rest)

theorem hasSeg_append_left : ∀ (a h : List Char) (n : List Char),
    hasSeg n h = true → hasSeg n (a ++ h) = true
  | [], _, _, hh => hh
  | x :: a', h, n, hh => by
    simp only [List.cons_append, hasSeg, Bool.or_eq_true]
    exact Or.inr (hasSeg_append_left a' h n hh)

theorem hasSeg_joinCols : ∀ (cols : List String) (c : String), c ∈ cols →
    hasSeg c.data (joinCols cols).data = true
  | [], c, hmem => by simp at hmem
  | [x], c, hmem => by
    rcases List.mem_singleton.1 hmem with rfl
    have := hasSeg_self_append c.data []
    simpa [joinCols] using this
  | x :: y :: rest, c, hmem => by
    rcases List.mem_cons.1 hmem with rfl | hmem'
    · show hasSeg c.data (c ++ ", " ++ joinCols (y :: rest)).data = true
      rw [String.data_append, String.data_append, List.append_assoc]
      exact hasSeg_self_append c.data _
    · show hasSeg c.data (x ++ ", " ++ joinCols (y :: rest)).data = true
      rw [String.data_append, String.data_append, List.append_assoc]
      exact hasSeg_append_left _ _ _
        (hasSeg_append_left _ _ _ (hasSeg_joinCols (y :: rest) c hmem'))

/-! ## C7: the extraction functions -/

/-- C7 (corrected): on the code, `extract_research_topic` matches the literal
marker `25 심층연구(`, so the claim's example input `"25 B(위성항법)_김민수"`
(which carries no such marker) yields `""`, not `"위성항법"`. -/
theorem C7_counterexample :
    extract_research_topic (Cell.str "25 B(위성항법)_김민수") = "" ∧
    ("" : String) ≠ "위성항법" := by
  exact ⟨rfl, by decide⟩

/-- C7 (amended): the researcher examples hold as stated; the topic example
holds once its input carries the configured marker (`"25 심층연구(위성항법)_김민수"`
→ `"위성항법"`); `"no marker"` yields `""`; and on null or non-text (numeric)
cells both extractions are total and return the empty string (they never
raise — both are total Lean functions into `String`). -/
theorem C7_extraction_precision :
    extract_researcher_name (Cell.str "25 B(위성항법)_김민수") = "김민수" ∧
    extract_researcher_name (Cell.str "no match") = "" ∧
    extract_research_topic (Cell.str "25 심층연구(위성항법)_김민수") = "위성항법" ∧
    extract_research_topic (Cell.str "no marker") = "" ∧
    extract_research_topic Cell.null = "" ∧
    extract_researcher_name Cell.null = "" ∧
    (∀ n : Int, extract_research_topic (Cell.num n) = "" ∧
      extract_researcher_name (Cell.num n) = "") := by
  refine ⟨rfl, rfl, rfl, rfl, rfl, rfl, fun n => ⟨rfl, rfl⟩⟩

/-! ## C2: classification is a partition (up to memo preprocessing) -/

/-- C2 (counterexample): the code returns subsets of the *preprocessed*
working copy (memo `fillna('').astype(str)`), so for a row whose memo is NaN
the union of the three outputs is not a multiset-equal copy of the original
input rows: the returned row carries memo `''` instead of NaN. -/
theorem C2_counterexample :
    classify_data (DataFrame.mk ["적요"] [[("적요", Cell.null)]]) "적요" =
      Except.ok (ClassificationResult.mk [] [] [[("적요", Cell.str "")]]) ∧
    ¬ (List.Perm (([] : List DRow) ++ [] ++ [[("적요", Cell.str "")]])
        [[("적요", Cell.null)]]) := by
  exact ⟨rfl, by decide⟩

/-- C2 (amended): for every non-empty input with the memo column, the three
classified row-sets are pairwise disjoint, their sizes sum to the input size,
and their union is multiset-equal to the input rows *after memo
preprocessing* (NaN → `''`, values coerced to text); for inputs whose memos
are all text this is the original input itself. -/
theorem C2_partition (df : DataFrame) (col : String) (res : ClassificationResult)
    (h1 : df.rows ≠ []) (h2 : col ∈ df.cols)
    (hres : classify_data df col = Except.ok res) :
    res.business.length + res.research.length + res.unclassified.length
        = df.rows.length ∧
    (∀ r ∈ res.business, ¬ r ∈ res.research ∧ ¬ r ∈ res.unclassified) ∧
    (∀ r ∈ res.research, ¬ r ∈ res.unclassified) ∧
    (res.business ++ res.research ++ res.unclassified).Perm
      (df.rows.map (preprocessMemo col)) := by
  have hemp : df.rows.isEmpty = false := by
    cases hr : df.rows
    · exact absurd hr h1
    · rfl
  have hcol : ¬ ¬ (col ∈ df.cols) := fun hc => hc h2
  rw [classify_data, if_neg (by simp [hemp]), if_neg hcol] at hres
  injection hres with hres
  subst hres
  set work := df.rows.map (preprocessMemo col) with hwork
  have hdisj : ∀ r ∈ work,
      ¬(isBusinessRow col r = true ∧ isResearchRow col r = true) := by
    intro r _ ⟨hb, hr2⟩
    exact not_business_and_research (cellText (getCell r col)) ⟨hb, hr2⟩
  have hperm :
      ((work.filter (isBusinessRow col) ++ work.filter (isResearchRow col)) ++
        work.filter (fun r => !(isBusinessRow col r || isResearchRow col r))).Perm work := by
    have s1 := filter_or_perm (isBusinessRow col) (isResearchRow col) work hdisj
    have s2 := List.filter_append_perm
      (fun r => isBusinessRow col r || isResearchRow col r) work
    exact (s1.append_right _).trans s2
  refine ⟨?_, ?_, ?_, ?_⟩
  · dsimp only
    have hlen := hperm.length_eq
    simp only [List.length_append] at hlen
    have hwl : work.length = df.rows.length := by simp [hwork]
    omega
  · intro r hrB
    dsimp only at hrB
    have hb := (List.mem_filter.1 hrB).2
    refine ⟨fun hrR => ?_, fun hrU => ?_⟩
    · dsimp only at hrR
      have hr2 := (List.mem_filter.1 hrR).2
      exact not_business_and_research (cellText (getCell r col)) ⟨hb, hr2⟩
    · dsimp only at hrU
      have hu := (List.mem_filter.1 hrU).2
      simp only [Bool.not_eq_true', Bool.or_eq_false_iff] at hu
      rw [hu.1] at hb
      cases hb
  · intro r hrR
    dsimp only at hrR
    have hr2 := (List.mem_filter.1 hrR).2
    intro hrU
    dsimp only at hrU
    have hu := (List.mem_filter.1 hrU).2
    simp only [Bool.not_eq_true', Bool.or_eq_false_iff] at hu
    rw [hu.2] at hr2
    cases hr2
  · dsimp only
    exact hperm

/-- C2 witness: the partition theorem applied to a concrete two-row frame
(one business row, one unclassified row). -/
theorem C2_partition_witness :
    ((DataFrame.mk ["적요"] [[("적요", Cell.str "25 차세대 A")], [("적요", Cell.str "기타")]]).rows ≠ [] ∧
      "적요" ∈ (DataFrame.mk ["적요"]
        [[("적요", Cell.str "25 차세대 A")], [("적요", Cell.str "기타")]]).cols) ∧
    (ClassificationResult.mk [[("적요", Cell.str "25 차세대 A")]] []
        [[("적요", Cell.str "기타")]]).business.length +
      (ClassificationResult.mk [[("적요", Cell.str "25 차세대 A")]] []
        [[("적요", Cell.str "기타")]]).research.length +
      (ClassificationResult.mk [[("적요", Cell.str "25 차세대 A")]] []
        [[("적요", Cell.str "기타")]]).unclassified.length =
      (DataFrame.mk ["적요"]
        [[("적요", Cell.str "25 차세대 A")], [("적요", Cell.str "기타")]]).rows.length := by
  refine ⟨⟨by decide, by decide⟩, ?_⟩
  exact (C2_partition
    (DataFrame.mk ["적요"] [[("적요", Cell.str "25 차세대 A")], [("적요", Cell.str "기타")]])
    "적요"
    (ClassificationResult.mk [[("적요", Cell.str "25 차세대 A")]] []
      [[("적요", Cell.str "기타")]])
    (by decide) (by decide) rfl).1

/-! ## C8: the classification validation boundary -/

/-- C8 (counterexample): on empty input the classifier raises with the fixed
message `분류할 데이터가 없습니다.`, which does not mention the available
column `금액` — so the claim that *both* failure messages enumerate the
available fields is false on the code. -/
theorem C8_counterexample :
    classify_data (DataFrame.mk ["금액"] []) "적요" =
      Except.error "분류할 데이터가 없습니다." ∧
    pyContains "분류할 데이터가 없습니다." "금액" = false := by
  exact ⟨rfl, by decide⟩

/-- C8 (amended): classification raises exactly when the input is empty or
the memo column is missing (synchronously, as an `Except.error` to the
caller), and in the missing-column case — only there — the message contains
every available column name. -/
theorem C8_validation (df : DataFrame) (col : String) :
    ((∃ m, classify_data df col = Except.error m) ↔
      (df.rows = [] ∨ ¬ col ∈ df.cols)) ∧
    (df.rows ≠ [] → ¬ col ∈ df.cols →
      ∀ c ∈ df.cols, (classifyError df col).any (fun m => pyContains m c) = true) := by
  constructor
  · constructor
    · rintro ⟨m, hm⟩
      by_contra hcon
      push_neg at hcon
      obtain ⟨hrows, hcol⟩ := hcon
      have hemp : df.rows.isEmpty = false := by
        cases hr : df.rows
        · exact absurd hr hrows
        · rfl
      rw [classify_data, if_neg (by simp [hemp]), if_neg (fun hc => hc hcol)] at hm
      cases hm
    · rintro (h | h)
      · exact ⟨_, by rw [classify_data, if_pos (by simp [h])]⟩
      · by_cases hrows : df.rows.isEmpty = true
        · exact ⟨_, by rw [classify_data, if_pos hrows]⟩
        · exact ⟨_, by rw [classify_data, if_neg hrows, if_pos h]⟩
  · intro h1 h2 c hc
    have hemp : df.rows.isEmpty = false := by
      cases hr : df.rows
      · exact absurd hr h1
      · rfl
    have hcd : classify_data df col =
        Except.error ("'" ++ col ++ "' 컬럼이 데이터에 존재하지 않습니다.\n사용 가능한 컬럼: "
          ++ joinCols df.cols) := by
      rw [classify_data, if_neg (by simp [hemp]), if_pos h2]
    have herr : classifyError df col =
        some ("'" ++ col ++ "' 컬럼이 데이터에 존재하지 않습니다.\n사용 가능한 컬럼: "
          ++ joinCols df.cols) := by
      rw [classifyError, hcd]
    rw [herr]
    show pyContains _ c = true
    rw [pyContains, String.data_append]
    exact hasSeg_append_left _ _ _ (hasSeg_joinCols df.cols c hc)

/-- C8 witness: the validation theorem applied to a concrete non-empty frame
missing the memo column; the error message mentions both available columns. -/
theorem C8_validation_witness :
    (((DataFrame.mk ["금액", "비고"] [[("금액", Cell.num 1)]]).rows ≠ []) ∧
      ¬ "적요" ∈ (DataFrame.mk ["금액", "비고"] [[("금액", Cell.num 1)]]).cols) ∧
    (∀ c ∈ (DataFrame.mk ["금액", "비고"] [[("금액", Cell.num 1)]]).cols,
      (classifyError (DataFrame.mk ["금액", "비고"] [[("금액", Cell.num 1)]]) "적요").any
        (fun m => pyContains m c) = true) := by
  refine ⟨⟨by decide, by decide⟩, ?_⟩
  exact (C8_validation (DataFrame.mk ["금액", "비고"] [[("금액", Cell.num 1)]]) "적요").2
    (by decide) (by decide)

/-! ## Lemmas about the reconciliation walk -/

theorem filter_comm {α : Type} (p q : α → Bool) (l : List α) :
    (l.filter p).filter q = (l.filter q).filter p := by
  induction l with
  | nil => rfl
  | cons x xs ih =>
    cases hp : p x <;> cases hq : q x <;> simp [List.filter_cons, hp, hq, ih]

theorem filter_sub {α : Type} (p q : α → Bool) (h : ∀ a, q a = true → p a = true) :
    ∀ l : List α, (l.filter p).filter q = l.filter q
  | [] => rfl
  | x :: xs => by
    cases hq : q x
    · cases hp : p x <;> simp [List.filter_cons, hp, hq, filter_sub p q h xs]
    · have hp := h x hq
      simp [List.filter_cons, hp, hq, filter_sub p q h xs]

theorem sumA_flatten {κ : Type} :
    ∀ L : List (List (κ × Int)), sumA L.flatten = (L.map sumA).sum
  | [] => rfl
  | x :: L => by
    simp only [List.flatten_cons, sumA_append, List.map_cons, List.sum_cons]
    rw [sumA_flatten L]

theorem selectMatch_perm (item : String) (rem : List (String × Int)) :
    ((selectMatch item rem).1 ++ (selectMatch item rem).2).Perm rem := by
  unfold selectMatch
  dsimp only
  split
  · split
    · simp
    · exact List.filter_append_perm _ rem
  · exact List.filter_append_perm _ rem

theorem hierWalk_map_fst : ∀ (fts : List FlatTax) (l : List (String × Int)),
    ((hierWalk fts l).1).map (fun p => p.1) = fts
  | [], _ => rfl
  | f :: fs, l => by
    simp only [hierWalk, List.map_cons]
    rw [hierWalk_map_fst fs]

theorem hierWalk_perm : ∀ (fts : List FlatTax) (l : List (String × Int)),
    (((hierWalk fts l).1.map (fun p => p.2)).flatten ++ (hierWalk fts l).2).Perm l
  | [], l => by simp [hierWalk]
  | f :: fs, l => by
    have hsel := selectMatch_perm f.2.2 l
    have ih := hierWalk_perm fs (selectMatch f.2.2 l).2
    simp only [hierWalk, List.map_cons, List.flatten_cons, List.append_assoc]
    exact (ih.append_left _).trans hsel

theorem selectMatch_filter (L : String) (P : String × Int → Bool) (l : List (String × Int))
    (hex : ∀ e, exactSel L e = true → P e = true)
    (hsub : ∀ e, subSel L e = true → P e = true) :
    (selectMatch L (l.filter P)).1 = (selectMatch L l).1 ∧
    (selectMatch L (l.filter P)).2 = ((selectMatch L l).2).filter P := by
  unfold selectMatch
  dsimp only
  rw [filter_sub P (exactSel L) hex l, filter_sub P (subSel L) hsub l]
  split
  · split
    · exact ⟨rfl, rfl⟩
    · exact ⟨rfl, filter_comm P (fun e => !subSel L e) l⟩
  · exact ⟨rfl, filter_comm P (fun e => !exactSel L e) l⟩

theorem hierWalk_filter_stable :
    ∀ (fts : List FlatTax) (P : String × Int → Bool) (l : List (String × Int)),
      (∀ e : String × Int, matchesAnyOf fts e.1 = true → P e = true) →
      (hierWalk fts (l.filter P)).1 = (hierWalk fts l).1
  | [], _, _, _ => rfl
  | f :: fs, P, l, h => by
    have hex : ∀ e : String × Int, exactSel f.2.2 e = true → P e = true := by
      intro e he
      apply h
      rw [exactSel, decide_eq_true_eq] at he
      simp [matchesAnyOf, List.any_cons, he]
    have hsub : ∀ e : String × Int, subSel f.2.2 e = true → P e = true := by
      intro e he
      apply h
      rw [subSel] at he
      simp [matchesAnyOf, List.any_cons, he]
    have hrec : ∀ e : String × Int, matchesAnyOf fs e.1 = true → P e = true := by
      intro e he
      apply h
      simp only [matchesAnyOf, List.any_cons, Bool.or_eq_true]
      exact Or.inr (by simpa [matchesAnyOf] using he)
    obtain ⟨hm1, hm2⟩ := selectMatch_filter f.2.2 P l hex hsub
    simp only [hierWalk]
    rw [hm1, hm2, hierWalk_filter_stable fs P ((selectMatch f.2.2 l).2) hrec]

/-! ## C1: no double counting in the reconciliation walk -/

/-- C1: every working-mapping entry is consumed by at most one taxonomy
line-item — the per-line-item consumed entry lists plus the leftover mapping
are a permutation of the aggregator's working mapping, hence the emitted
spent amounts and the leftover sum split the input sum exactly; and on a
concrete frame whose single raw label contains both `국내여비` and the later
`국외업무여비` as substrings, the earlier line-item consumes it (spent 500)
while the later line-item's row shows 0 spent, not a duplicate. -/
theorem C1_no_double_count (df : DataFrame) (l : List (String × Int))
    (hl : aggregate_expenses df = some l) :
    (((hierWalk flatTax l).1.map (fun p => p.2)).flatten ++ (hierWalk flatTax l).2).Perm l ∧
    ((hierWalk flatTax l).1.map (fun p => sumA p.2)).sum + sumA (hierWalk flatTax l).2
      = sumA l ∧
    (((generate_summary_sheet (DataFrame.mk ["적요", "예산과목", "총지급액"]
        [[("적요", Cell.str "x"), ("예산과목", Cell.str "국내여비국외업무여비"),
          ("총지급액", Cell.num 500)]])).find?
        (fun r => decide (r.item = "국내여비"))).map (fun r => r.spent) = some 500 ∧
      ((generate_summary_sheet (DataFrame.mk ["적요", "예산과목", "총지급액"]
        [[("적요", Cell.str "x"), ("예산과목", Cell.str "국내여비국외업무여비"),
          ("총지급액", Cell.num 500)]])).find?
        (fun r => decide (r.item = "국외업무여비"))).map (fun r => r.spent) = some 0) := by
  refine ⟨hierWalk_perm flatTax l, ?_, rfl, rfl⟩
  have hp := hierWalk_perm flatTax l
  have hs := List.Perm.sum_eq (hp.map (fun e => e.2))
  rw [List.map_append, List.sum_append] at hs
  have hf2 : ((hierWalk flatTax l).1.map (fun p => sumA p.2)).sum
      = sumA (((hierWalk flatTax l).1.map (fun p => p.2)).flatten) := by
    rw [sumA_flatten, List.map_map]
    rfl
  rw [hf2]
  exact hs

/-- C1 witness: the theorem applied to the concrete overlapping-label frame. -/
theorem C1_witness :
    aggregate_expenses (DataFrame.mk ["적요", "예산과목", "총지급액"]
      [[("적요", Cell.str "x"), ("예산과목", Cell.str "국내여비국외업무여비"),
        ("총지급액", Cell.num 500)]]) = some [("국내여비국외업무여비", 500)] ∧
    ((hierWalk flatTax [("국내여비국외업무여비", 500)]).1.map (fun p => sumA p.2)).sum
      + sumA (hierWalk flatTax [("국내여비국외업무여비", 500)]).2
      = sumA [("국내여비국외업무여비", 500)] :=
  ⟨rfl, (C1_no_double_count (DataFrame.mk ["적요", "예산과목", "총지급액"]
    [[("적요", Cell.str "x"), ("예산과목", Cell.str "국내여비국외업무여비"),
      ("총지급액", Cell.num 500)]]) [("국내여비국외업무여비", 500)] rfl).2.1⟩

/-! ## C10: unmatched raw labels contribute nothing -/

/-- C10: entries of the working mapping whose raw label matches no taxonomy
line-item (neither exactly nor as a case-insensitive substring) can be
removed without changing the hierarchical structure at all — so they
contribute to no emitted row and not to the TOTAL spent; concretely, the
`미분류` sentinel substituted for a missing line-item matches nothing, and a
frame holding only such a row yields TOTAL spent 0 although its amounts sum
to 700. -/
theorem C10_unmatched_excluded (df : DataFrame) (l : List (String × Int))
    (hl : aggregate_expenses df = some l) :
    create_hierarchical_structure (l.filter (fun e => matchesAnyOf flatTax e.1))
      = create_hierarchical_structure l ∧
    (aggregate_expenses (DataFrame.mk ["적요", "예산과목", "총지급액"]
        [[("적요", Cell.str "y"), ("예산과목", Cell.null), ("총지급액", Cell.num 700)]])
      = some [("미분류", 700)] ∧
     matchesAnyOf flatTax "미분류" = false ∧
     ((generate_summary_sheet (DataFrame.mk ["적요", "예산과목", "총지급액"]
        [[("적요", Cell.str "y"), ("예산과목", Cell.null), ("총지급액", Cell.num 700)]])).getLast?).map
          (fun r => r.spent) = some 0 ∧
     ((DataFrame.mk ["적요", "예산과목", "총지급액"]
        [[("적요", Cell.str "y"), ("예산과목", Cell.null), ("총지급액", Cell.num 700)]]).rows.map
          (fun r => amtNum (getCell r "총지급액"))).sum = 700 ∧
     (0 : Int) < 700) := by
  refine ⟨?_, rfl, by decide, rfl, rfl, by decide⟩
  have hrows := hierWalk_filter_stable flatTax (fun e => matchesAnyOf flatTax e.1) l
    (fun e he => he)
  simp only [create_hierarchical_structure]
  rw [hrows]

/-- C10 witness: the theorem applied to the concrete `미분류` frame. -/
theorem C10_witness :
    aggregate_expenses (DataFrame.mk ["적요", "예산과목", "총지급액"]
      [[("적요", Cell.str "y"), ("예산과목", Cell.null), ("총지급액", Cell.num 700)]])
      = some [("미분류", 700)] ∧
    create_hierarchical_structure
        (([("미분류", 700)] : List (String × Int)).filter (fun e => matchesAnyOf flatTax e.1))
      = create_hierarchical_structure [("미분류", 700)] :=
  ⟨rfl, (C10_unmatched_excluded (DataFrame.mk ["적요", "예산과목", "총지급액"]
    [[("적요", Cell.str "y"), ("예산과목", Cell.null), ("총지급액", Cell.num 700)]])
    [("미분류", 700)] rfl).1⟩

/-! ## C9: missing aggregation columns degrade to the empty typed frame -/

/-- C9: when the line-item column or the amount column is missing from a
non-empty input, the aggregator returns the empty (typed) result frame — the
error is logged internally and nothing is raised past the boundary (the
embedded pipeline is a total function into the summary-row list). -/
theorem C9_missing_columns_degrade (df : DataFrame) (h1 : df.rows ≠ [])
    (h2 : ¬ "예산과목" ∈ df.cols ∨ ¬ "총지급액" ∈ df.cols) :
    generate_summary_sheet df = [] := by
  have hemp : df.rows.isEmpty = false := by
    cases hr : df.rows
    · exact absurd hr h1
    · rfl
  have hagg : aggregate_expenses df = none := by
    rw [aggregate_expenses, if_neg]
    rintro ⟨ha, hb⟩
    rcases h2 with h | h
    · exact h ha
    · exact h hb
  rw [generate_summary_sheet, if_neg (by simp [hemp]), hagg]

/-- C9 witness: a concrete non-empty frame missing the amount column. -/
theorem C9_witness :
    ((DataFrame.mk ["적요", "예산과목"] [[("적요", Cell.str "a")]]).rows ≠ [] ∧
      ¬ "총지급액" ∈ (DataFrame.mk ["적요", "예산과목"] [[("적요", Cell.str "a")]]).cols) ∧
    generate_summary_sheet (DataFrame.mk ["적요", "예산과목"] [[("적요", Cell.str "a")]]) = [] :=
  ⟨⟨by decide, by decide⟩,
    C9_missing_columns_degrade (DataFrame.mk ["적요", "예산과목"] [[("적요", Cell.str "a")]])
      (by decide) (Or.inr (by decide))⟩

/-! ## Lemmas about the totals merge and the budget columns -/

theorem foldl_map_commute {α β : Type} (g : β → α → α) :
    ∀ (agg : List β) (rows : List α),
      agg.foldl (fun rs e => rs.map (fun r => g e r)) rows
        = rows.map (fun r => agg.foldl (fun r e => g e r) r)
  | [], rows => by simp
  | e :: agg', rows => by
    simp only [List.foldl_cons]
    rw [foldl_map_commute g agg' (rows.map (fun r => g e r)), List.map_map]
    rfl

theorem foldl_center_nohit :
    ∀ (agg : List (Cell × Int)) (row : TSkel),
      (∀ e ∈ agg, ¬ (Cell.str row.item = e.1)) →
      agg.foldl (fun row e =>
        if Cell.str row.item = e.1 then { row with center := e.2 } else row) row = row
  | [], _, _ => rfl
  | e :: agg', row, h => by
    simp only [List.foldl_cons, if_neg (h e (by simp))]
    exact foldl_center_nohit agg' row (fun e' he' => h e' (by simp [he']))

theorem foldl_center_eq :
    ∀ (agg : List (Cell × Int)) (row : TSkel),
      (agg.map (fun e => e.1)).Nodup →
      agg.foldl (fun row e =>
        if Cell.str row.item = e.1 then { row with center := e.2 } else row) row
      = { row with center :=
            ((agg.find? (fun e => decide (Cell.str row.item = e.1))).map
              (fun e => e.2)).getD row.center }
  | [], row, _ => rfl
  | e :: agg', row, h => by
    rw [List.map_cons, List.nodup_cons] at h
    by_cases hit : Cell.str row.item = e.1
    · have hfind : List.find? (fun e => decide (Cell.str row.item = e.1)) (e :: agg')
          = some e := List.find?_cons_of_pos _ (decide_eq_true hit)
      rw [List.foldl_cons, if_pos hit, hfind]
      simp only [Option.map_some', Option.getD_some]
      apply foldl_center_nohit
      intro e' he' hcontra
      have hc' : Cell.str row.item = e'.1 := hcontra
      have hm : e'.1 ∈ agg'.map (fun e => e.1) := List.mem_map_of_mem _ he'
      rw [← hit.symm.trans hc'] at hm
      exact h.1 hm
    · have hfind : List.find? (fun e => decide (Cell.str row.item = e.1)) (e :: agg')
          = List.find? (fun e => decide (Cell.str row.item = e.1)) agg' :=
        List.find?_cons_of_neg _ (by simpa using hit)
      rw [List.foldl_cons, if_neg hit, hfind]
      exact foldl_center_eq agg' row h.2

theorem foldl_research_nohit :
    ∀ (agg : List (Cell × Int)) (row : TSkel),
      (∀ e ∈ agg, ¬ (Cell.str row.item = e.1)) →
      agg.foldl (fun row e =>
        if Cell.str row.item = e.1 then { row with research := e.2 } else row) row = row
  | [], _, _ => rfl
  | e :: agg', row, h => by
    simp only [List.foldl_cons, if_neg (h e (by simp))]
    exact foldl_research_nohit agg' row (fun e' he' => h e' (by simp [he']))

theorem foldl_research_eq :
    ∀ (agg : List (Cell × Int)) (row : TSkel),
      (agg.map (fun e => e.1)).Nodup →
      agg.foldl (fun row e =>
        if Cell.str row.item = e.1 then { row with research := e.2 } else row) row
      = { row with research :=
            ((agg.find? (fun e => decide (Cell.str row.item = e.1))).map
              (fun e => e.2)).getD row.research }
  | [], row, _ => rfl
  | e :: agg', row, h => by
    rw [List.map_cons, List.nodup_cons] at h
    by_cases hit : Cell.str row.item = e.1
    · have hfind : List.find? (fun e => decide (Cell.str row.item = e.1)) (e :: agg')
          = some e := List.find?_cons_of_pos _ (decide_eq_true hit)
      rw [List.foldl_cons, if_pos hit, hfind]
      simp only [Option.map_some', Option.getD_some]
      apply foldl_research_nohit
      intro e' he' hcontra
      have hc' : Cell.str row.item = e'.1 := hcontra
      have hm : e'.1 ∈ agg'.map (fun e => e.1) := List.mem_map_of_mem _ he'
      rw [← hit.symm.trans hc'] at hm
      exact h.1 hm
    · have hfind : List.find? (fun e => decide (Cell.str row.item = e.1)) (e :: agg')
          = List.find? (fun e => decide (Cell.str row.item = e.1)) agg' :=
        List.find?_cons_of_neg _ (by simpa using hit)
      rw [List.foldl_cons, if_neg hit, hfind]
      exact foldl_research_eq agg' row h.2

theorem foldl_center_triple :
    ∀ (agg : List (Cell × Int)) (row : TSkel),
      ((agg.foldl (fun row e =>
        if Cell.str row.item = e.1 then { row with center := e.2 } else row) row).cat,
       (agg.foldl (fun row e =>
        if Cell.str row.item = e.1 then { row with center := e.2 } else row) row).sub,
       (agg.foldl (fun row e =>
        if Cell.str row.item = e.1 then { row with center := e.2 } else row) row).item)
      = (row.cat, row.sub, row.item)
  | [], _ => rfl
  | e :: agg', row => by
    simp only [List.foldl_cons]
    by_cases hit : Cell.str row.item = e.1
    · rw [if_pos hit]
      exact foldl_center_triple agg' _
    · rw [if_neg hit]
      exact foldl_center_triple agg' row

theorem foldl_research_triple :
    ∀ (agg : List (Cell × Int)) (row : TSkel),
      ((agg.foldl (fun row e =>
        if Cell.str row.item = e.1 then { row with research := e.2 } else row) row).cat,
       (agg.foldl (fun row e =>
        if Cell.str row.item = e.1 then { row with research := e.2 } else row) row).sub,
       (agg.foldl (fun row e =>
        if Cell.str row.item = e.1 then { row with research := e.2 } else row) row).item)
      = (row.cat, row.sub, row.item)
  | [], _ => rfl
  | e :: agg', row => by
    simp only [List.foldl_cons]
    by_cases hit : Cell.str row.item = e.1
    · rw [if_pos hit]
      exact foldl_research_triple agg' _
    · rw [if_neg hit]
      exact foldl_research_triple agg' row

theorem mapExp_triple (bAgg rAgg : List (Cell × Int)) (skel : List TSkel) :
    (map_expenses_to_structure skel bAgg rAgg).map (fun r => (r.cat, r.sub, r.item))
      = skel.map (fun r => (r.cat, r.sub, r.item)) := by
  rw [map_expenses_to_structure]
  rw [foldl_map_commute (fun e row =>
    if Cell.str row.item = e.1 then { row with center := e.2 } else row) bAgg skel]
  rw [foldl_map_commute (fun e row =>
    if Cell.str row.item = e.1 then { row with research := e.2 } else row) rAgg
    (skel.map (fun r => bAgg.foldl (fun r e =>
      if Cell.str r.item = e.1 then { r with center := e.2 } else r) r))]
  rw [List.map_map, List.map_map]
  apply List.map_congr_left
  intro row _
  exact (foldl_research_triple rAgg _).trans (foldl_center_triple bAgg row)

theorem dedupF_mem {κ : Type} [DecidableEq κ] : ∀ (l : List κ) (a : κ),
    a ∈ dedupF l ↔ a ∈ l
  | [], a => Iff.rfl
  | k :: ks, a => by
    simp only [dedupF, List.mem_cons, List.mem_filter]
    constructor
    · rintro (rfl | ⟨hmem, _⟩)
      · exact Or.inl rfl
      · exact Or.inr ((dedupF_mem ks a).1 hmem)
    · rintro (rfl | hmem)
      · exact Or.inl rfl
      · by_cases ha : a = k
        · exact Or.inl ha
        · exact Or.inr ⟨(dedupF_mem ks a).2 hmem, by simp [ha]⟩

theorem dedupF_nodup {κ : Type} [DecidableEq κ] : ∀ (l : List κ), (dedupF l).Nodup
  | [] => List.nodup_nil
  | k :: ks => by
    rw [dedupF, List.nodup_cons]
    constructor
    · intro hmem
      have := (List.mem_filter.1 hmem).2
      simp at this
    · exact (dedupF_nodup ks).filter _

theorem groupBySum_keys_nodup {κ : Type} [DecidableEq κ] (l : List (κ × Int)) :
    ((groupBySum l).map (fun e => e.1)).Nodup := by
  rw [groupBySum, List.map_map]
  show ((dedupF (l.map (fun e => e.1))).map (fun k => k)).Nodup
  simpa using dedupF_nodup (l.map (fun e => e.1))

theorem gss_eq (df : DataFrame) (l : List (String × Int))
    (h1 : df.rows ≠ []) (hl : aggregate_expenses df = some l) :
    generate_summary_sheet df
      = add_budget_calculations (create_hierarchical_structure l) := by
  have hemp : df.rows.isEmpty = false := by
    cases hr : df.rows
    · exact absurd hr h1
    · rfl
  rw [generate_summary_sheet, if_neg (by simp [hemp]), hl]

theorem chs_split (l : List (String × Int)) :
    create_hierarchical_structure l
      = (hierWalk flatTax l).1.map (fun p => HRow.mk p.1.1 p.1.2.1 p.1.2.2 (sumA p.2))
        ++ [HRow.mk "총액" ""
            "" ((((hierWalk flatTax l).1.map
                (fun p => HRow.mk p.1.1 p.1.2.1 p.1.2.2 (sumA p.2))).map
              (fun r => r.spent)).sum)] := by
  simp only [create_hierarchical_structure]

theorem abc_split (a : List HRow) (x : HRow) :
    add_budget_calculations (a ++ [x])
      = add_budget_calculations a ++ add_budget_calculations [x] := by
  simp only [add_budget_calculations, List.map_append]

theorem gss_dropLast (df : DataFrame) (l : List (String × Int))
    (h1 : df.rows ≠ []) (hl : aggregate_expenses df = some l) :
    (generate_summary_sheet df).dropLast
      = add_budget_calculations ((hierWalk flatTax l).1.map
          (fun p => HRow.mk p.1.1 p.1.2.1 p.1.2.2 (sumA p.2))) := by
  rw [gss_eq df l h1 hl, chs_split, abc_split]
  exact List.dropLast_concat

theorem abc_last (a : List HRow) (x : HRow) :
    (add_budget_calculations (a ++ [x])).getLast?
      = some (SRow.mk x.cat x.sub x.item (get_budget_amount x.item defaultBudgets2025)
          x.spent (get_budget_amount x.item defaultBudgets2025 - x.spent)
          (execRate x.spent (get_budget_amount x.item defaultBudgets2025))) := by
  rw [abc_split]
  exact List.getLast?_concat _

theorem gss_last_budget (df : DataFrame) (l : List (String × Int))
    (h1 : df.rows ≠ []) (hl : aggregate_expenses df = some l) :
    ((generate_summary_sheet df).getLast?).map (fun r => r.budget)
      = some (sumA defaultBudgets2025) := by
  rw [gss_eq df l h1 hl, chs_split, abc_last]
  rfl

/-! ## C4: per-row budget lookup and the TOTAL row's budget policy -/

/-- C4: every non-TOTAL row emitted by the per-track aggregator has a
non-blank, non-`총액` line-item and its budget equals the exact-then
both-direction-substring lookup (`budget_lookup_spec`); the trailing TOTAL
row's budget is the sum of ALL configured per-year defaults, which differs
from the column sum of the emitted rows' budgets. -/
theorem C4_budget_columns (df : DataFrame) (l : List (String × Int))
    (h1 : df.rows ≠ []) (hl : aggregate_expenses df = some l) :
    (∀ r ∈ (generate_summary_sheet df).dropLast,
        r.item ≠ "" ∧ r.item ≠ "총액" ∧
        r.budget = budget_lookup_spec r.item defaultBudgets2025) ∧
    ((generate_summary_sheet df).getLast?).map (fun r => r.budget)
      = some (sumA defaultBudgets2025) ∧
    ((generate_summary_sheet df).dropLast.map (fun r => r.budget)).sum
      ≠ sumA defaultBudgets2025 := by
  have hitems : ∀ f ∈ flatTax, f.2.2 ≠ "" ∧ f.2.2 ≠ "총액" ∧
      get_budget_amount f.2.2 defaultBudgets2025
        = budget_lookup_spec f.2.2 defaultBudgets2025 := by decide
  have hdrop := gss_dropLast df l h1 hl
  refine ⟨?_, gss_last_budget df l h1 hl, ?_⟩
  · intro r hr
    rw [hdrop, add_budget_calculations, List.map_map] at hr
    obtain ⟨p, hp, rfl⟩ := List.mem_map.1 hr
    have hpf : p.1 ∈ flatTax := by
      rw [← hierWalk_map_fst flatTax l]
      exact List.mem_map_of_mem _ hp
    have hf := hitems p.1 hpf
    exact ⟨hf.1, hf.2.1, hf.2.2⟩
  · have hmap : (hierWalk flatTax l).1.map
        (fun p => get_budget_amount p.1.2.2 defaultBudgets2025)
        = flatTax.map (fun f => get_budget_amount f.2.2 defaultBudgets2025) := by
      conv_rhs => rw [← hierWalk_map_fst flatTax l, List.map_map]
      rfl
    rw [hdrop, add_budget_calculations, List.map_map, List.map_map]
    show ((hierWalk flatTax l).1.map
      (fun p => get_budget_amount p.1.2.2 defaultBudgets2025)).sum ≠ sumA defaultBudgets2025
    rw [hmap]
    decide

/-- C4 witness: the theorem applied to a concrete one-row frame. -/
theorem C4_witness :
    aggregate_expenses (DataFrame.mk ["적요", "예산과목", "총지급액"]
      [[("적요", Cell.str "x"), ("예산과목", Cell.str "국내여비국외업무여비"),
        ("총지급액", Cell.num 500)]]) = some [("국내여비국외업무여비", 500)] ∧
    ((generate_summary_sheet (DataFrame.mk ["적요", "예산과목", "총지급액"]
      [[("적요", Cell.str "x"), ("예산과목", Cell.str "국내여비국외업무여비"),
        ("총지급액", Cell.num 500)]])).getLast?).map (fun r => r.budget)
      = some (sumA defaultBudgets2025) :=
  ⟨rfl, (C4_budget_columns (DataFrame.mk ["적요", "예산과목", "총지급액"]
    [[("적요", Cell.str "x"), ("예산과목", Cell.str "국내여비국외업무여비"),
      ("총지급액", Cell.num 500)]]) [("국내여비국외업무여비", 500)]
    (by decide) rfl).2.1⟩

theorem gts_budgets (bdf rdf : DataFrame) :
    (add_budget_calculations_total (map_expenses_to_structure
        create_full_hierarchical_structure
        (aggregate_track bdf) (aggregate_track rdf))).map (fun r => r.budget)
      = create_full_hierarchical_structure.map
          (fun r => (defaultBudgets2025.lookup r.item).getD 0) := by
  rw [add_budget_calculations_total, List.map_map]
  have h3 := congrArg (List.map (fun t : String × String × String =>
    (defaultBudgets2025.lookup t.2.2).getD 0)) (mapExp_triple (aggregate_track bdf)
      (aggregate_track rdf) create_full_hierarchical_structure)
  rw [List.map_map, List.map_map] at h3
  exact h3

theorem gts_last_budget (bdf rdf : DataFrame) :
    ((generate_total_sheet bdf rdf).getLast?).map (fun r => r.budget)
      = some ((create_full_hierarchical_structure.map
          (fun r => (defaultBudgets2025.lookup r.item).getD 0)).sum) := by
  rw [generate_total_sheet]
  have hlen : (add_budget_calculations_total (map_expenses_to_structure
      create_full_hierarchical_structure
      (aggregate_track bdf) (aggregate_track rdf))).length
      = create_full_hierarchical_structure.length := by
    rw [add_budget_calculations_total, List.length_map]
    have h4 := congrArg List.length (mapExp_triple (aggregate_track bdf)
      (aggregate_track rdf) create_full_hierarchical_structure)
    simpa only [List.length_map] using h4
  have hne : (add_budget_calculations_total (map_expenses_to_structure
      create_full_hierarchical_structure
      (aggregate_track bdf) (aggregate_track rdf))).isEmpty = false := by
    cases hc : add_budget_calculations_total (map_expenses_to_structure
      create_full_hierarchical_structure
      (aggregate_track bdf) (aggregate_track rdf))
    · rw [hc] at hlen
      cases hlen
    · rfl
  rw [add_total_row, if_neg (by simp [hne])]
  rw [List.getLast?_concat]
  simp only [Option.map_some']
  exact congrArg some (congrArg List.sum (gts_budgets bdf rdf))

/-! ## C3: the two TOTAL-budget computations are not identical -/

/-- C3 (counterexample): on a concrete pair of inputs the per-track TOTAL
budget is 2,810,000,000 (the sum of ALL configured 2025 defaults, including
the key `연구개발비` which is not a taxonomy line-item) while the totals
merger's TOTAL budget is the 2,720,000,000 column sum over the emitted
taxonomy rows — the two are not numerically identical. -/
theorem C3_counterexample :
    ((generate_summary_sheet (DataFrame.mk ["적요", "예산과목", "총지급액"]
      [[("적요", Cell.str "x"), ("예산과목", Cell.str "일용임금"),
        ("총지급액", Cell.num 100)]])).getLast?).map (fun r => r.budget)
      = some 2810000000 ∧
    ((generate_total_sheet (DataFrame.mk ["적요", "예산과목", "총지급액"]
      [[("적요", Cell.str "x"), ("예산과목", Cell.str "일용임금"),
        ("총지급액", Cell.num 100)]]) (DataFrame.mk [] [])).getLast?).map (fun r => r.budget)
      = some 2720000000 ∧
    (2810000000 : Int) ≠ 2720000000 := by
  exact ⟨rfl, rfl, by decide⟩

/-- C3 (amended): the per-track TOTAL budget always equals the sum of all
configured defaults (2,810,000,000) while the merger's TOTAL budget always
equals the column sum over the emitted taxonomy rows (2,720,000,000); every
taxonomy line-item is indeed emitted in both paths, but the configured
default map carries the extra key `연구개발비` (90,000,000) which is not a
taxonomy line-item, so the two totals differ by exactly that default. -/
theorem C3_total_budget_policies (bdf : DataFrame) (l : List (String × Int))
    (h1 : bdf.rows ≠ []) (hl : aggregate_expenses bdf = some l)
    (bdf' rdf' : DataFrame) :
    ((generate_summary_sheet bdf).getLast?).map (fun r => r.budget)
      = some 2810000000 ∧
    ((generate_total_sheet bdf' rdf').getLast?).map (fun r => r.budget)
      = some 2720000000 ∧
    (2810000000 : Int) - 2720000000 = (defaultBudgets2025.lookup "연구개발비").getD 0 := by
  refine ⟨?_, ?_, by decide⟩
  · rw [gss_last_budget bdf l h1 hl]
    exact congrArg some (by decide)
  · rw [gts_last_budget bdf' rdf']
    exact congrArg some (by decide)

/-- C3 witness: the amended theorem applied to concrete frames. -/
theorem C3_witness :
    aggregate_expenses (DataFrame.mk ["적요", "예산과목", "총지급액"]
      [[("적요", Cell.str "x"), ("예산과목", Cell.str "일용임금"),
        ("총지급액", Cell.num 100)]]) = some [("일용임금", 100)] ∧
    ((generate_total_sheet (DataFrame.mk [] []) (DataFrame.mk [] [])).getLast?).map
        (fun r => r.budget) = some 2720000000 :=
  ⟨rfl, (C3_total_budget_policies (DataFrame.mk ["적요", "예산과목", "총지급액"]
    [[("적요", Cell.str "x"), ("예산과목", Cell.str "일용임금"),
      ("총지급액", Cell.num 100)]]) [("일용임금", 100)] (by decide) rfl
    (DataFrame.mk [] []) (DataFrame.mk [] [])).2.1⟩

theorem aggregate_track_keys_nodup (df : DataFrame) :
    ((aggregate_track df).map (fun e => e.1)).Nodup := by
  rw [aggregate_track]
  repeat' split
  all_goals try dsimp only
  repeat' split
  all_goals first
  | exact List.nodup_nil
  | exact groupBySum_keys_nodup _

theorem mapExp_rows (bAgg rAgg : List (Cell × Int)) (skel : List TSkel)
    (hb : (bAgg.map (fun e => e.1)).Nodup) (hr : (rAgg.map (fun e => e.1)).Nodup) :
    map_expenses_to_structure skel bAgg rAgg
      = skel.map (fun row =>
          { row with
            center := ((bAgg.find? (fun e => decide (Cell.str row.item = e.1))).map
              (fun e => e.2)).getD row.center,
            research := ((rAgg.find? (fun e => decide (Cell.str row.item = e.1))).map
              (fun e => e.2)).getD row.research }) := by
  rw [map_expenses_to_structure]
  rw [foldl_map_commute (fun e row =>
    if Cell.str row.item = e.1 then { row with center := e.2 } else row) bAgg skel]
  rw [foldl_map_commute (fun e row =>
    if Cell.str row.item = e.1 then { row with research := e.2 } else row) rAgg
    (skel.map (fun r => bAgg.foldl (fun r e =>
      if Cell.str r.item = e.1 then { r with center := e.2 } else r) r))]
  rw [List.map_map]
  apply List.map_congr_left
  intro row _
  show rAgg.foldl (fun r e =>
      if Cell.str r.item = e.1 then { r with research := e.2 } else r)
    (bAgg.foldl (fun r e =>
      if Cell.str r.item = e.1 then { r with center := e.2 } else r) row) = _
  rw [foldl_center_eq bAgg row hb]
  rw [foldl_research_eq rAgg _ hr]

theorem abct_isEmpty (bdf rdf : DataFrame) :
    (add_budget_calculations_total (map_expenses_to_structure
      create_full_hierarchical_structure
      (aggregate_track bdf) (aggregate_track rdf))).isEmpty = false := by
  have hlen : (add_budget_calculations_total (map_expenses_to_structure
      create_full_hierarchical_structure
      (aggregate_track bdf) (aggregate_track rdf))).length
      = create_full_hierarchical_structure.length := by
    rw [add_budget_calculations_total, List.length_map]
    have h4 := congrArg List.length (mapExp_triple (aggregate_track bdf)
      (aggregate_track rdf) create_full_hierarchical_structure)
    simpa only [List.length_map] using h4
  cases hc : add_budget_calculations_total (map_expenses_to_structure
    create_full_hierarchical_structure
    (aggregate_track bdf) (aggregate_track rdf))
  · rw [hc] at hlen
    cases hlen
  · rfl

/-! ## C5: full taxonomy skeleton and exact-equality merge -/

/-- C5: the totals table always contains exactly one row per taxonomy
line-item with full labels in taxonomy order (followed by the `총액` row),
every line-item present even when no data row mentions it, and the
classified spent amounts land on those rows by exact raw-label equality only
(a label that exactly equals no group key leaves the 0 default — there is no
substring fallback).  The hypotheses pin the inputs to numeric amount
columns, the domain this embedding models. -/
theorem C5_full_skeleton_exact_merge (bdf rdf : DataFrame)
    (hbs : ∀ r ∈ bdf.rows,
      isStrCell (getCell r "총지급액") = false ∧ isStrCell (getCell r "지출액") = false)
    (hrs : ∀ r ∈ rdf.rows,
      isStrCell (getCell r "총지급액") = false ∧ isStrCell (getCell r "지출액") = false) :
    ((generate_total_sheet bdf rdf).map (fun r => (r.cat, r.sub, r.item))
      = fullTax ++ [("총액", "", "")]) ∧
    (∀ r ∈ (generate_total_sheet bdf rdf).dropLast,
      r.center = (((aggregate_track bdf).find? (fun e => decide (Cell.str r.item = e.1))).map
        (fun e => e.2)).getD 0 ∧
      r.research = (((aggregate_track rdf).find? (fun e => decide (Cell.str r.item = e.1))).map
        (fun e => e.2)).getD 0 ∧
      r.budget = (defaultBudgets2025.lookup r.item).getD 0) := by
  have hbn := aggregate_track_keys_nodup bdf
  have hrn := aggregate_track_keys_nodup rdf
  have hrows := mapExp_rows (aggregate_track bdf) (aggregate_track rdf)
    create_full_hierarchical_structure hbn hrn
  constructor
  · rw [generate_total_sheet, add_total_row, if_neg (by simp [abct_isEmpty bdf rdf]),
      List.map_append]
    congr 1
    · rw [add_budget_calculations_total, List.map_map]
      have h6 := mapExp_triple (aggregate_track bdf) (aggregate_track rdf)
        create_full_hierarchical_structure
      exact h6.trans (by decide)
  · intro r hr
    rw [generate_total_sheet, add_total_row, if_neg (by simp [abct_isEmpty bdf rdf]),
      List.dropLast_concat, add_budget_calculations_total, hrows, List.map_map] at hr
    obtain ⟨srow, hs, rfl⟩ := List.mem_map.1 hr
    have hzero : ∀ s ∈ create_full_hierarchical_structure,
        s.center = 0 ∧ s.research = 0 := by decide
    have hz := hzero srow hs
    refine ⟨?_, ?_, rfl⟩
    · show (((aggregate_track bdf).find? (fun e => decide (Cell.str srow.item = e.1))).map
          (fun e => e.2)).getD srow.center
        = (((aggregate_track bdf).find? (fun e => decide (Cell.str srow.item = e.1))).map
          (fun e => e.2)).getD 0
      rw [hz.1]
    · show (((aggregate_track rdf).find? (fun e => decide (Cell.str srow.item = e.1))).map
          (fun e => e.2)).getD srow.research
        = (((aggregate_track rdf).find? (fun e => decide (Cell.str srow.item = e.1))).map
          (fun e => e.2)).getD 0
      rw [hz.2]

/-- C5 witness: the theorem applied to a concrete pair of frames (one
business row on `일용임금`, no research rows). -/
theorem C5_witness :
    ((generate_total_sheet (DataFrame.mk ["적요", "예산과목", "총지급액"]
        [[("적요", Cell.str "x"), ("예산과목", Cell.str "일용임금"),
          ("총지급액", Cell.num 100)]]) (DataFrame.mk [] [])).map
      (fun r => (r.cat, r.sub, r.item)) = fullTax ++ [("총액", "", "")]) :=
  (C5_full_skeleton_exact_merge (DataFrame.mk ["적요", "예산과목", "총지급액"]
      [[("적요", Cell.str "x"), ("예산과목", Cell.str "일용임금"),
        ("총지급액", Cell.num 100)]]) (DataFrame.mk [] [])
    (by decide) (by decide)).1

/-! ## Lemmas for the research composite sheet -/

theorem mem_insertSorted (x : String × String) : ∀ (l : List (String × String)) (a),
    a ∈ insertSorted x l ↔ a = x ∨ a ∈ l
  | [], a => by simp [insertSorted]
  | y :: ys, a => by
    rw [insertSorted]
    split
    · simp only [List.mem_cons]
      try tauto
    · simp only [List.mem_cons, mem_insertSorted x ys a]
      try tauto

theorem mem_sortPairs : ∀ (l : List (String × String)) (a), a ∈ sortPairs l ↔ a ∈ l
  | [], _ => Iff.rfl
  | x :: xs, a => by
    simp only [sortPairs, mem_insertSorted x (sortPairs xs) a, mem_sortPairs xs a,
      List.mem_cons]

theorem combos_mem (df : DataFrame) (p : String × String)
    (hp : p ∈ extract_topic_researcher_combinations df) :
    ∃ row ∈ df.rows, extract_research_topic (getCell row "적요") = p.1 ∧
      extract_researcher_name (getCell row "적요") = p.2 := by
  rw [extract_topic_researcher_combinations] at hp
  by_cases hc : "적요" ∈ df.cols
  · rw [if_pos hc, mem_sortPairs, dedupF_mem] at hp
    obtain ⟨row, hrow, hpair⟩ := List.mem_filterMap.1 hp
    simp only [pairOf] at hpair
    by_cases hcond : extract_research_topic (getCell row "적요") ≠ "" ∧
        extract_researcher_name (getCell row "적요") ≠ ""
    · rw [if_pos hcond] at hpair
      injection hpair with hpair
      exact ⟨row, hrow, by rw [← hpair], by rw [← hpair]⟩
    · rw [if_neg hcond] at hpair
      cases hpair
  · rw [if_neg hc] at hp
    cases hp

theorem filter_pair_spec (df : DataFrame) (t r : String) (hc : "적요" ∈ df.cols)
    (row : DRow) (hrow : row ∈ df.rows)
    (ht : extract_research_topic (getCell row "적요") = t)
    (hr : extract_researcher_name (getCell row "적요") = r) :
    filter_data_by_topic_researcher df t r
      = DataFrame.mk df.cols (df.rows.filter (pairFilter t r)) := by
  have hkept : row ∈ df.rows.filter (pairFilter t r) := by
    rw [List.mem_filter]
    exact ⟨hrow, by simp [pairFilter, ht, hr]⟩
  have hne : (df.rows.filter (pairFilter t r)).isEmpty = false := by
    cases hk : df.rows.filter (pairFilter t r)
    · rw [hk] at hkept
      cases hkept
    · rfl
  rw [filter_data_by_topic_researcher, if_pos hc]
  dsimp only
  rw [if_neg (by simp [hne])]

theorem aggregate_expenses_some (df : DataFrame)
    (h2 : "예산과목" ∈ df.cols) (h3 : "총지급액" ∈ df.cols) :
    aggregate_expenses df = some (groupBySum (df.rows.map
      (fun r => (labelStr (getCell r "예산과목"), amtNum (getCell r "총지급액"))))) := by
  rw [aggregate_expenses, if_pos ⟨h2, h3⟩]

theorem hierWalk_length (l : List (String × Int)) :
    (hierWalk flatTax l).1.length = flatTax.length := by
  have h := congrArg List.length (hierWalk_map_fst flatTax l)
  simpa using h

theorem body_no_chong (l : List (String × Int)) :
    ∀ r ∈ add_budget_calculations ((hierWalk flatTax l).1.map
      (fun p => HRow.mk p.1.1 p.1.2.1 p.1.2.2 (sumA p.2))), ¬ (r.cat = "총액") := by
  intro r hr
  rw [add_budget_calculations, List.map_map] at hr
  obtain ⟨p, hp, rfl⟩ := List.mem_map.1 hr
  have hpf : p.1 ∈ flatTax := by
    rw [← hierWalk_map_fst flatTax l]
    exact List.mem_map_of_mem _ hp
  have hcats : ∀ f ∈ flatTax, f.1 ≠ "총액" := by decide
  exact hcats p.1 hpf

theorem summary_filter_chong (df : DataFrame) (l : List (String × Int))
    (h1 : df.rows ≠ []) (hl : aggregate_expenses df = some l) :
    (generate_summary_sheet df).filter (fun row => !decide (row.cat = "총액"))
      = add_budget_calculations ((hierWalk flatTax l).1.map
          (fun p => HRow.mk p.1.1 p.1.2.1 p.1.2.2 (sumA p.2))) := by
  rw [gss_eq df l h1 hl, chs_split, abc_split, List.filter_append]
  have hkeep : (add_budget_calculations ((hierWalk flatTax l).1.map
      (fun p => HRow.mk p.1.1 p.1.2.1 p.1.2.2 (sumA p.2)))).filter
        (fun row => !decide (row.cat = "총액"))
      = add_budget_calculations ((hierWalk flatTax l).1.map
          (fun p => HRow.mk p.1.1 p.1.2.1 p.1.2.2 (sumA p.2))) :=
    List.filter_eq_self.mpr (fun a ha => by
      simpa using body_no_chong l a ha)
  have hdropT : ∀ x : Int, (add_budget_calculations [HRow.mk "총액" "" "" x]).filter
      (fun row => !decide (row.cat = "총액")) = [] := fun x => rfl
  rw [hkeep, hdropT, List.append_nil]

theorem summary_findIdx_chong (df : DataFrame) (l : List (String × Int))
    (h1 : df.rows ≠ []) (hl : aggregate_expenses df = some l) :
    (generate_summary_sheet df).findIdx? (fun r => decide (r.cat = "총액"))
      = some ((add_budget_calculations ((hierWalk flatTax l).1.map
          (fun p => HRow.mk p.1.1 p.1.2.1 p.1.2.2 (sumA p.2)))).length) := by
  rw [gss_eq df l h1 hl, chs_split, abc_split, List.findIdx?_append]
  have hnone : (add_budget_calculations ((hierWalk flatTax l).1.map
      (fun p => HRow.mk p.1.1 p.1.2.1 p.1.2.2 (sumA p.2)))).findIdx?
        (fun r => decide (r.cat = "총액")) = none :=
    List.findIdx?_eq_none_iff.mpr (fun x hx => by
      simpa using body_no_chong l x hx)
  have hfirst : ∀ x : Int, (add_budget_calculations [HRow.mk "총액" "" "" x]).findIdx?
      (fun r => decide (r.cat = "총액")) = some 0 := fun x => rfl
  rw [hnone, hfirst]
  simp

theorem gss_length (df : DataFrame) (l : List (String × Int))
    (h1 : df.rows ≠ []) (hl : aggregate_expenses df = some l) :
    (generate_summary_sheet df).length = flatTax.length + 1 := by
  rw [gss_eq df l h1 hl, chs_split, add_budget_calculations]
  rw [List.length_map, List.length_append, List.length_map, hierWalk_length]
  rfl

theorem gss_isEmpty (df : DataFrame) (l : List (String × Int))
    (h1 : df.rows ≠ []) (hl : aggregate_expenses df = some l) :
    (generate_summary_sheet df).isEmpty = false := by
  have hlen := gss_length df l h1 hl
  cases hk : generate_summary_sheet df
  · rw [hk] at hlen
    simp at hlen
  · rfl

theorem indiv_table_shape (fd : DataFrame) (t r : String)
    (h2 : "예산과목" ∈ fd.cols) (h3 : "총지급액" ∈ fd.cols) (h4 : fd.rows ≠ []) :
    generate_individual_table fd t r
      = [blankCRow, blankCRow,
         CRow.mk t r "" (Cell.str "") (Cell.str "") (Cell.str "") ""]
        ++ (add_budget_calculations ((hierWalk flatTax (groupBySum (fd.rows.map
            (fun q => (labelStr (getCell q "예산과목"), amtNum (getCell q "총지급액")))))).1.map
            (fun p => HRow.mk p.1.1 p.1.2.1 p.1.2.2 (sumA p.2)))).map toCRow
        ++ [rndExpenseRow (calculate_research_expense fd "연구개발비"),
            assetExpenseRow (calculate_research_expense fd "자산취득비"),
            blankCRow, blankCRow] := by
  have hl := aggregate_expenses_some fd h2 h3
  rw [generate_individual_table]
  rw [if_neg (by simp [gss_isEmpty fd _ h4 hl])]
  rw [summary_filter_chong fd _ h4 hl]
  simp [List.append_assoc]

theorem grand_shape (df : DataFrame) (l : List (String × Int))
    (h1 : df.rows ≠ []) (hl : aggregate_expenses df = some l) :
    (generate_total_summary df).take 1
      = [CRow.mk "총합" "" "" (Cell.str "") (Cell.str "") (Cell.str "") ""] ∧
    (generate_total_summary df).length = 27 := by
  rw [generate_total_summary]
  dsimp only
  rw [if_neg (by simp [gss_isEmpty df l h1 hl])]
  rw [summary_findIdx_chong df l h1 hl]
  dsimp only
  rw [gss_eq df l h1 hl, chs_split, abc_split, List.take_left]
  refine ⟨rfl, ?_⟩
  rw [add_budget_calculations]
  simp only [List.length_cons, List.length_append, List.length_map, hierWalk_length]
  decide

theorem charListLt_trans : ∀ (a b c : List Char),
    charListLt a b = true → charListLt b c = true → charListLt a c = true
  | [], [], _, h1, _ => by cases h1
  | [], _ :: _, [], _, h2 => by cases h2
  | [], _ :: _, _ :: _, _, _ => rfl
  | _ :: _, [], _, h1, _ => by cases h1
  | _ :: _, _ :: _, [], _, h2 => by cases h2
  | a :: as_, b :: bs, c :: cs, h1, h2 => by
    simp only [charListLt, Bool.or_eq_true, Bool.and_eq_true, decide_eq_true_eq] at h1 h2 ⊢
    rcases h1 with h1 | ⟨rfl, h1⟩
    · rcases h2 with h2 | ⟨rfl, h2⟩
      · exact Or.inl (lt_trans h1 h2)
      · exact Or.inl h1
    · rcases h2 with h2 | ⟨rfl, h2⟩
      · exact Or.inl h2
      · exact Or.inr ⟨rfl, charListLt_trans as_ bs cs h1 h2⟩

theorem charListLt_total : ∀ (a b : List Char),
    charListLt a b = true ∨ a = b ∨ charListLt b a = true
  | [], [] => Or.inr (Or.inl rfl)
  | [], _ :: _ => Or.inl rfl
  | _ :: _, [] => Or.inr (Or.inr rfl)
  | a :: as_, b :: bs => by
    rcases lt_trichotomy a b with h | h | h
    · exact Or.inl (by simp [charListLt, h])
    · subst h
      rcases charListLt_total as_ bs with h2 | h2 | h2
      · exact Or.inl (by simp [charListLt, h2])
      · exact Or.inr (Or.inl (by rw [h2]))
      · exact Or.inr (Or.inr (by simp [charListLt, h2]))
    · exact Or.inr (Or.inr (by simp [charListLt, h]))

theorem string_data_inj (s t : String) (h : s.data = t.data) : s = t :=
  congrArg String.mk h

theorem pairLe_total (p q : String × String) :
    pairLe p q = true ∨ pairLe q p = true := by
  simp only [pairLe, Bool.or_eq_true, Bool.and_eq_true, decide_eq_true_eq]
  rcases charListLt_total p.1.data q.1.data with h | h | h
  · exact Or.inl (Or.inl h)
  · have h1 : p.1 = q.1 := string_data_inj _ _ h
    rcases charListLt_total p.2.data q.2.data with h2 | h2 | h2
    · exact Or.inl (Or.inr ⟨h1, Or.inl h2⟩)
    · exact Or.inl (Or.inr ⟨h1, Or.inr (string_data_inj _ _ h2)⟩)
    · exact Or.inr (Or.inr ⟨h1.symm, Or.inl h2⟩)
  · exact Or.inr (Or.inl h)

theorem pairLe_trans (p q r : String × String)
    (h1 : pairLe p q = true) (h2 : pairLe q r = true) : pairLe p r = true := by
  simp only [pairLe, Bool.or_eq_true, Bool.and_eq_true, decide_eq_true_eq] at h1 h2 ⊢
  rcases h1 with h1 | ⟨he1, h1⟩
  · rcases h2 with h2 | ⟨he2, h2⟩
    · exact Or.inl (charListLt_trans _ _ _ h1 h2)
    · exact Or.inl (he2 ▸ h1)
  · rcases h2 with h2 | ⟨he2, h2⟩
    · exact Or.inl (he1 ▸ h2)
    · refine Or.inr ⟨he1.trans he2, ?_⟩
      rcases h1 with h1 | h1
      · rcases h2 with h2 | h2
        · exact Or.inl (charListLt_trans _ _ _ h1 h2)
        · exact Or.inl (h2 ▸ h1)
      · rcases h2 with h2 | h2
        · exact Or.inl (h1 ▸ h2)
        · exact Or.inr (h1.trans h2)

theorem insertSorted_pairwise (x : String × String) :
    ∀ l, List.Pairwise (fun a b => pairLe a b = true) l →
      List.Pairwise (fun a b => pairLe a b = true) (insertSorted x l)
  | [], _ => by simp [insertSorted]
  | y :: ys, h => by
    rw [insertSorted]
    rcases List.pairwise_cons.1 h with ⟨hy, hys⟩
    by_cases hxy : pairLe x y = true
    · rw [if_pos hxy, List.pairwise_cons]
      refine ⟨?_, h⟩
      intro z hz
      rcases List.mem_cons.1 hz with rfl | hz'
      · exact hxy
      · exact pairLe_trans x y z hxy (hy z hz')
    · rw [if_neg hxy, List.pairwise_cons]
      refine ⟨?_, insertSorted_pairwise x ys hys⟩
      intro z hz
      rcases (mem_insertSorted x ys z).1 hz with hzx | hz'
      · rw [hzx]
        rcases pairLe_total x y with htot | htot
        · exact absurd htot hxy
        · exact htot
      · exact hy z hz'

theorem sortPairs_pairwise : ∀ l : List (String × String),
    List.Pairwise (fun a b => pairLe a b = true) (sortPairs l)
  | [] => List.Pairwise.nil
  | x :: xs => insertSorted_pairwise x _ (sortPairs_pairwise xs)

theorem body_items (l : List (String × Int)) :
    (((add_budget_calculations ((hierWalk flatTax l).1.map
        (fun p => HRow.mk p.1.1 p.1.2.1 p.1.2.2 (sumA p.2)))).map toCRow).map
      (fun row => row.item))
      = flatTax.map (fun f => f.2.2) := by
  rw [add_budget_calculations, List.map_map, List.map_map, List.map_map]
  conv_rhs => rw [← hierWalk_map_fst flatTax l, List.map_map]
  rfl

theorem body_length (l : List (String × Int)) :
    ((add_budget_calculations ((hierWalk flatTax l).1.map
      (fun p => HRow.mk p.1.1 p.1.2.1 p.1.2.2 (sumA p.2)))).map toCRow).length
      = flatTax.length := by
  rw [add_budget_calculations]
  simp [hierWalk_length]

theorem body_no_chong_c (l : List (String × Int)) :
    ∀ r ∈ (add_budget_calculations ((hierWalk flatTax l).1.map
      (fun p => HRow.mk p.1.1 p.1.2.1 p.1.2.2 (sumA p.2)))).map toCRow,
      ¬ (r.cat = "총액") := by
  intro r hr
  obtain ⟨s, hs, rfl⟩ := List.mem_map.1 hr
  have hc := body_no_chong l s hs
  simpa [toCRow] using hc

theorem indiv_bundle (fd : DataFrame) (t r : String)
    (h2 : "예산과목" ∈ fd.cols) (h3 : "총지급액" ∈ fd.cols) (h4 : fd.rows ≠ []) :
    (generate_individual_table fd t r).length = 28 ∧
    (generate_individual_table fd t r).take 3
      = [blankCRow, blankCRow,
         CRow.mk t r "" (Cell.str "") (Cell.str "") (Cell.str "") ""] ∧
    (((generate_individual_table fd t r).drop 3).take 21).map (fun row => row.item)
      = flatTax.map (fun f => f.2.2) ∧
    ((generate_individual_table fd t r).drop 3).drop 21
      = [rndExpenseRow (calculate_research_expense fd "연구개발비"),
         assetExpenseRow (calculate_research_expense fd "자산취득비"),
         blankCRow, blankCRow] ∧
    (∀ row ∈ (generate_individual_table fd t r).drop 3, ¬ (row.cat = "총액")) := by
  have hshape := indiv_table_shape fd t r h2 h3 h4
  set body := (add_budget_calculations ((hierWalk flatTax (groupBySum (fd.rows.map
      (fun q => (labelStr (getCell q "예산과목"), amtNum (getCell q "총지급액")))))).1.map
      (fun p => HRow.mk p.1.1 p.1.2.1 p.1.2.2 (sumA p.2)))).map toCRow with hbody
  have hblen : body.length = 21 := by
    rw [hbody, body_length]
    decide
  refine ⟨?_, ?_, ?_, ?_, ?_⟩
  · rw [hshape]
    simp [hblen]
  · rw [hshape]
    rfl
  · rw [hshape]
    show ((body ++ [rndExpenseRow (calculate_research_expense fd "연구개발비"),
        assetExpenseRow (calculate_research_expense fd "자산취득비"),
        blankCRow, blankCRow]).take 21).map (fun row => row.item)
      = flatTax.map (fun f => f.2.2)
    rw [List.take_left' hblen, hbody, body_items]
  · rw [hshape]
    show (body ++ [rndExpenseRow (calculate_research_expense fd "연구개발비"),
        assetExpenseRow (calculate_research_expense fd "자산취득비"),
        blankCRow, blankCRow]).drop 21
      = [rndExpenseRow (calculate_research_expense fd "연구개발비"),
         assetExpenseRow (calculate_research_expense fd "자산취득비"),
         blankCRow, blankCRow]
    exact List.drop_left' hblen
  · rw [hshape]
    intro row hrow
    have hrow' : row ∈ body ++ [rndExpenseRow (calculate_research_expense fd "연구개발비"),
        assetExpenseRow (calculate_research_expense fd "자산취득비"),
        blankCRow, blankCRow] := hrow
    rcases List.mem_append.1 hrow' with hb | ht
    · rw [hbody] at hb
      exact body_no_chong_c _ row hb
    · simp only [List.mem_cons, List.not_mem_nil, or_false] at ht
      rcases ht with rfl | rfl | rfl | rfl
      · simp [rndExpenseRow]
      · simp [assetExpenseRow]
      · simp [blankCRow]
      · simp [blankCRow]

/-! ## C6: shape of the composite research summary -/

/-- C6: for a research frame from which exactly 2 distinct (topic,
researcher) pairs are extracted, the composite sheet is exactly the
grand-total table followed by the two per-pair tables in the extracted pair
order; the two pairs are in sorted order, the grand-total table opens with
the `총합` title row and has 27 rows, and each per-pair table has 28 rows —
two leading blanks, the (topic, researcher) title row, one row per taxonomy
line-item in taxonomy order, the two synthetic R&D/asset rows, and two
trailing blanks — with zero `총액` (TOTAL) rows after the title block. -/
theorem C6_composite_shape (df : DataFrame) (t₁ r₁ t₂ r₂ : String)
    (h1 : "적요" ∈ df.cols) (h2 : "예산과목" ∈ df.cols) (h3 : "총지급액" ∈ df.cols)
    (h4 : df.rows ≠ [])
    (h5 : extract_topic_researcher_combinations df = [(t₁, r₁), (t₂, r₂)]) :
    generate_research_summary_sheet df
      = generate_total_summary df
        ++ generate_individual_table (filter_data_by_topic_researcher df t₁ r₁) t₁ r₁
        ++ generate_individual_table (filter_data_by_topic_researcher df t₂ r₂) t₂ r₂ ∧
    pairLe (t₁, r₁) (t₂, r₂) = true ∧
    (generate_total_summary df).take 1
      = [CRow.mk "총합" "" "" (Cell.str "") (Cell.str "") (Cell.str "") ""] ∧
    (generate_total_summary df).length = 27 ∧
    (∀ t r, (t, r) ∈ [(t₁, r₁), (t₂, r₂)] →
      ∀ fd, fd = filter_data_by_topic_researcher df t r →
        (generate_individual_table fd t r).length = 28 ∧
        (generate_individual_table fd t r).take 3
          = [blankCRow, blankCRow,
             CRow.mk t r "" (Cell.str "") (Cell.str "") (Cell.str "") ""] ∧
        (((generate_individual_table fd t r).drop 3).take 21).map (fun row => row.item)
          = flatTax.map (fun f => f.2.2) ∧
        ((generate_individual_table fd t r).drop 3).drop 21
          = [rndExpenseRow (calculate_research_expense fd "연구개발비"),
             assetExpenseRow (calculate_research_expense fd "자산취득비"),
             blankCRow, blankCRow] ∧
        (∀ row ∈ (generate_individual_table fd t r).drop 3, ¬ (row.cat = "총액"))) := by
  have hagg := aggregate_expenses_some df h2 h3
  have hempdf : df.rows.isEmpty = false := by
    cases hk : df.rows
    · exact absurd hk h4
    · rfl
  obtain ⟨row1, hrow1, ht1, hr1⟩ := combos_mem df (t₁, r₁) (by rw [h5]; simp)
  obtain ⟨row2, hrow2, ht2, hr2⟩ := combos_mem df (t₂, r₂) (by rw [h5]; simp)
  have hfd1 := filter_pair_spec df t₁ r₁ h1 row1 hrow1 ht1 hr1
  have hfd2 := filter_pair_spec df t₂ r₂ h1 row2 hrow2 ht2 hr2
  have hmem1 : row1 ∈ df.rows.filter (pairFilter t₁ r₁) :=
    List.mem_filter.mpr ⟨hrow1, by simp [pairFilter, ht1, hr1]⟩
  have hmem2 : row2 ∈ df.rows.filter (pairFilter t₂ r₂) :=
    List.mem_filter.mpr ⟨hrow2, by simp [pairFilter, ht2, hr2]⟩
  have hne1 : (filter_data_by_topic_researcher df t₁ r₁).rows ≠ [] := by
    rw [hfd1]
    intro hcon
    dsimp only at hcon
    rw [hcon] at hmem1
    cases hmem1
  have hne2 : (filter_data_by_topic_researcher df t₂ r₂).rows ≠ [] := by
    rw [hfd2]
    intro hcon
    dsimp only at hcon
    rw [hcon] at hmem2
    cases hmem2
  have hemp1 : (filter_data_by_topic_researcher df t₁ r₁).rows.isEmpty = false := by
    cases hk : (filter_data_by_topic_researcher df t₁ r₁).rows
    · exact absurd hk hne1
    · rfl
  have hemp2 : (filter_data_by_topic_researcher df t₂ r₂).rows.isEmpty = false := by
    cases hk : (filter_data_by_topic_researcher df t₂ r₂).rows
    · exact absurd hk hne2
    · rfl
  refine ⟨?_, ?_, (grand_shape df _ h4 hagg).1, (grand_shape df _ h4 hagg).2, ?_⟩
  · rw [generate_research_summary_sheet, if_neg (by simp [hempdf])]
    rw [generate_individual_summaries, h5]
    simp only [List.filterMap_cons, List.filterMap_nil, hemp1, hemp2,
      Bool.false_eq_true, if_false, List.flatten_cons, List.flatten_nil,
      List.append_nil, List.append_assoc]
  · have hpw := sortPairs_pairwise (dedupF (df.rows.filterMap pairOf))
    rw [extract_topic_researcher_combinations, if_pos h1] at h5
    rw [h5] at hpw
    rcases List.pairwise_cons.1 hpw with ⟨hhead, _⟩
    exact hhead (t₂, r₂) (by simp)
  · intro t r hmem fd hfd
    rcases List.mem_cons.1 hmem with heq | hmem'
    · have het : t = t₁ := congrArg Prod.fst heq
      have her : r = r₁ := congrArg Prod.snd heq
      subst het
      subst her
      rw [hfd]
      refine indiv_bundle _ t r ?_ ?_ hne1
      · rw [hfd1]
        exact h2
      · rw [hfd1]
        exact h3
    · rcases List.mem_cons.1 hmem' with heq | hfalse
      · have het : t = t₂ := congrArg Prod.fst heq
        have her : r = r₂ := congrArg Prod.snd heq
        subst het
        subst her
        rw [hfd]
        refine indiv_bundle _ t r ?_ ?_ hne2
        · rw [hfd2]
          exact h2
        · rw [hfd2]
          exact h3
      · cases hfalse

/-- C6 witness: the shape theorem applied to a concrete two-pair research
frame (output: grand-total table of 27 rows plus two 28-row pair tables). -/
theorem C6_witness :
    extract_topic_researcher_combinations (DataFrame.mk ["적요", "예산과목", "총지급액"]
      [[("적요", Cell.str "25 심층연구(A)_김민수"), ("예산과목", Cell.str "일용임금"),
        ("총지급액", Cell.num 1000)],
       [("적요", Cell.str "25 심층연구(B)_이영희"), ("예산과목", Cell.str "국내여비"),
        ("총지급액", Cell.num 2000)]]) = [("A", "김민수"), ("B", "이영희")] ∧
    generate_research_summary_sheet (DataFrame.mk ["적요", "예산과목", "총지급액"]
      [[("적요", Cell.str "25 심층연구(A)_김민수"), ("예산과목", Cell.str "일용임금"),
        ("총지급액", Cell.num 1000)],
       [("적요", Cell.str "25 심층연구(B)_이영희"), ("예산과목", Cell.str "국내여비"),
        ("총지급액", Cell.num 2000)]])
      = generate_total_summary (DataFrame.mk ["적요", "예산과목", "총지급액"]
          [[("적요", Cell.str "25 심층연구(A)_김민수"), ("예산과목", Cell.str "일용임금"),
            ("총지급액", Cell.num 1000)],
           [("적요", Cell.str "25 심층연구(B)_이영희"), ("예산과목", Cell.str "국내여비"),
            ("총지급액", Cell.num 2000)]])
        ++ generate_individual_table (filter_data_by_topic_researcher
            (DataFrame.mk ["적요", "예산과목", "총지급액"]
              [[("적요", Cell.str "25 심층연구(A)_김민수"), ("예산과목", Cell.str "일용임금"),
                ("총지급액", Cell.num 1000)],
               [("적요", Cell.str "25 심층연구(B)_이영희"), ("예산과목", Cell.str "국내여비"),
                ("총지급액", Cell.num 2000)]]) "A" "김민수") "A" "김민수"
        ++ generate_individual_table (filter_data_by_topic_researcher
            (DataFrame.mk ["적요", "예산과목", "총지급액"]
              [[("적요", Cell.str "25 심층연구(A)_김민수"), ("예산과목", Cell.str "일용임금"),
                ("총지급액", Cell.num 1000)],
               [("적요", Cell.str "25 심층연구(B)_이영희"), ("예산과목", Cell.str "국내여비"),
                ("총지급액", Cell.num 2000)]]) "B" "이영희") "B" "이영희" :=
  ⟨rfl, (C6_composite_shape (DataFrame.mk ["적요", "예산과목", "총지급액"]
    [[("적요", Cell.str "25 심층연구(A)_김민수"), ("예산과목", Cell.str "일용임금"),
      ("총지급액", Cell.num 1000)],
     [("적요", Cell.str "25 심층연구(B)_이영희"), ("예산과목", Cell.str "국내여비"),
      ("총지급액", Cell.num 2000)]]) "A" "김민수" "B" "이영희"
    (by decide) (by decide) (by decide) (by decide) rfl).1⟩
